import Mathlib

/-!
# CPlayerMove: the per-tick user-command pipeline

A shallow embedding of `mp/src/game/server/player_command.cpp`.

Modelling conventions.

* `float`/`double` values are rationals (`ℚ`): every comparison and every
  arithmetic step of the source is kept, rounding is not modelled.
* `int` values are `Int`; button masks are `Nat` bit patterns of width 32.
* Entity flags (`GetFlags() & FL_X`, `AddFlag`, `RemoveFlag`) are one `Bool`
  per flag bit the file tests.
* Constants, convars and view vectors that are declared outside the file are
  fields of `Cfg`; read-only queries made outside the file are fields of `Env`;
  callbacks that may change the game state are fields of `Hooks`.
* Every call that leaves the file is appended to a log, so that "is invoked",
  "exactly once" and "before/after" are statements about that log.
* The file is modelled as built without `HL2_DLL`; `VPROF` and `Assert` have no
  effect on the state and are left out.
-/

namespace CPlayerMove

/-! ## Data model -/

/-- A `Vector`: three floats. -/
structure Vec3 where
  x : ℚ
  y : ℚ
  z : ℚ
deriving DecidableEq, Repr

/-- A `QAngle`; index `PITCH` is the first component. -/
structure QAngle where
  pitch : ℚ
  yaw : ℚ
  roll : ℚ
deriving DecidableEq, Repr

/-- The constant `vec3_origin`. -/
def vec3_origin : Vec3 := ⟨0, 0, 0⟩

/-- The constant `vec3_angle`. -/
def vec3_angle : QAngle := ⟨0, 0, 0⟩

/-- Vector sum, `a + b`. -/
def Vec3.add (a b : Vec3) : Vec3 := ⟨a.x + b.x, a.y + b.y, a.z + b.z⟩

/-- Vector difference, `a - b`. -/
def Vec3.sub (a b : Vec3) : Vec3 := ⟨a.x - b.x, a.y - b.y, a.z - b.z⟩

/-- Scaling, `k * a`. -/
def Vec3.smul (k : ℚ) (a : Vec3) : Vec3 := ⟨k * a.x, k * a.y, k * a.z⟩

/-- Angle sum, `a + b`. -/
def QAngle.add (a b : QAngle) : QAngle := ⟨a.pitch + b.pitch, a.yaw + b.yaw, a.roll + b.roll⟩

/-- A `matrix3x4_t`. -/
abbrev matrix3x4_t := Fin 3 → Fin 4 → ℚ

/-- The flag bits of the player that the file reads or writes. -/
structure Flags where
  FL_ONGROUND : Bool
  FL_DUCKING : Bool
  FL_ATCONTROLS : Bool
  FL_BASEVELOCITY : Bool
deriving DecidableEq, Repr

/-- What the file reads of the entity the player stands on. -/
structure GroundEntity where
  /-- The result of `GetFlags() & FL_CONVEYOR`. -/
  FL_CONVEYOR : Bool
  /-- The vector `GetGroundVelocityToApply` hands back. -/
  groundVelocityToApply : Vec3
deriving DecidableEq, Repr

/-- The values of `pl.fixangle`. -/
inductive FixAngle where
  | FIXANGLE_NONE
  | FIXANGLE_ABSOLUTE
  | FIXANGLE_RELATIVE
deriving DecidableEq, Repr

/-- The values of `GetMoveType()` the file distinguishes. -/
inductive MoveType where
  | MOVETYPE_NOCLIP
  | MOVETYPE_OTHER
deriving DecidableEq, Repr

/-- The fields of `CBasePlayer` (and `CMomentumPlayer`) the file touches. -/
structure CBasePlayer where
  m_nTickBase : Int
  m_bGamePaused : Bool
  IsBot : Bool
  /-- Whether `m_pCurrentCommand` is non-null. -/
  m_pCurrentCommand : Bool
  m_afButtonForced : Nat
  m_afButtonDisabled : Nat
  m_nButtons : Nat
  m_afButtonPressed : Nat
  m_afButtonReleased : Nat
  m_nImpulse : Int
  moveType : MoveType
  flags : Flags
  groundEntity : Option GroundEntity
  baseVelocity : Vec3
  absVelocity : Vec3
  absOrigin : Vec3
  previouslyPredictedOrigin : Vec3
  m_vecOldOrigin : Vec3
  v_angle : QAngle
  fixangle : FixAngle
  anglechange : QAngle
  nextThinkTick : Int
  OBBMins : Vec3
  OBBMaxs : Vec3
  m_nOldButtons : Nat
  m_flMaxspeed : ℚ
  /-- The move parent's `EntityToWorldTransform()`, when there is a parent. -/
  moveParent : Option matrix3x4_t
  /-- The constraint entity's `GetAbsOrigin()`, when `m_hConstraintEntity` is set. -/
  m_hConstraintEntity : Option Vec3
  m_vecConstraintCenter : Vec3
  m_flConstraintRadius : ℚ
  m_flConstraintWidth : ℚ
  m_flConstraintSpeedFactor : ℚ
  lockViewanglesTickNumber : Int
  lockViewanglesData : QAngle
  bodyPitch : ℚ
  localAngles : QAngle
  /-- Whether `m_CurrentSlideTrigger` is set. -/
  m_CurrentSlideTrigger : Bool
  HasAutoBhop : Bool

/-- The fields of `CUserCmd` the file touches. -/
structure CUserCmd where
  viewangles : QAngle
  buttons : Nat
  impulse : Int
  weaponselect : Int
  weaponsubtype : Int
  forwardmove : ℚ
  sidemove : ℚ
  upmove : ℚ
deriving DecidableEq, Repr

/-- The fields of `CMoveData` the file touches (`m_nPlayerHandle` is the one
player of the model). -/
structure CMoveData where
  m_bFirstRunOfFunctions : Bool
  m_bGameCodeMovedPlayer : Bool
  m_nImpulseCommand : Int
  m_vecViewAngles : QAngle
  m_vecAbsViewAngles : QAngle
  m_vecAngles : QAngle
  m_vecOldAngles : QAngle
  m_nButtons : Nat
  m_nOldButtons : Nat
  m_flForwardMove : ℚ
  m_flSideMove : ℚ
  m_flUpMove : ℚ
  m_flClientMaxSpeed : ℚ
  m_vecVelocity : Vec3
  absOrigin : Vec3
  m_vecGroundPosition : Vec3
  m_vecConstraintCenter : Vec3
  m_flConstraintRadius : ℚ
  m_flConstraintWidth : ℚ
  m_flConstraintSpeedFactor : ℚ
deriving DecidableEq, Repr

/-- The fields of `gpGlobals` and the prediction statics of `CBaseEntity`. -/
structure Globals where
  curtime : ℚ
  frametime : ℚ
  tickcount : Int
  /-- Whether `SetPredictionRandomSeed` was last given a command. -/
  predictionRandomSeed : Bool
  /-- Whether `SetPredictionPlayer` was last given a player. -/
  predictionPlayer : Bool
deriving DecidableEq, Repr

/-- Everything `RunCommand` can read or write. -/
structure GameState where
  player : CBasePlayer
  ucmd : CUserCmd
  g_pMoveData : CMoveData
  gpGlobals : Globals
  /-- The function-local static of `RunCommand`. -/
  s_dblLastWarningTime : ℚ

/-- What the file reads of a `trace_t`. -/
structure trace_t where
  startsolid : Bool
  fraction : ℚ
  /-- The result of `DidHit()`. -/
  DidHit : Bool
  planeNormal : Vec3
  endpos : Vec3
deriving DecidableEq, Repr

/-- Constants, view vectors and convars declared outside the file. -/
structure Cfg where
  TICK_INTERVAL : ℚ
  TICK_NEVER_THINK : Int
  VEC_HULL_MIN : Vec3
  VEC_HULL_MAX : Vec3
  VEC_DUCK_HULL_MIN : Vec3
  VEC_DUCK_HULL_MAX : Vec3
  IN_JUMP : Nat
  IN_DUCK : Nat
  /-- The result of `g_pGameModeSystem->GetGameMode()->GetViewScale()`. -/
  viewScale : ℚ
  sv_maxusrcmdprocessticks_warning : ℚ
  sv_maxusrcmdprocessticks_holdaim : Int
  sv_ground_trigger_fix : Bool
  sv_considered_on_ground : ℚ
  sv_cheats : Bool
  sv_noclipduringpause : Bool
deriving DecidableEq, Repr

/-- Read-only queries answered outside the file. -/
structure Env where
  /-- The value `player->ConsumeMovementTimeForUserCmdProcessing(t)` returns. -/
  ConsumeMovementTimeForUserCmdProcessing : ℚ → ℚ
  Plat_FloatTime : ℚ
  IsValid : QAngle → Bool
  IsEntityQAngleReasonable : QAngle → Bool
  /-- The name of the weapon `CBaseEntity::Instance(i)` casts to, if any. -/
  weaponInstance : Int → Option String
  /-- The sweep `UTIL_TraceHull(start, end, mins, maxs, ...)`. -/
  UTIL_TraceHull : Vec3 → Vec3 → Vec3 → Vec3 → trace_t
  /-- The sweep `UTIL_TraceRay` of a ray `Init(start, end, mins, maxs)`. -/
  UTIL_TraceRay : Vec3 → Vec3 → Vec3 → Vec3 → trace_t
  AngleMatrix : QAngle → matrix3x4_t
  ConcatTransforms : matrix3x4_t → matrix3x4_t → matrix3x4_t
  MatrixAngles : matrix3x4_t → QAngle

/-- Callbacks implemented outside the file; each may change the game state. -/
structure Hooks where
  StartTrackPredictionErrors : GameState → GameState
  CommentarySystem_PePlayerRunCommand : GameState → GameState
  SelectItem : String → Int → GameState → GameState
  UpdateButtonState : Nat → GameState → GameState
  PhysicsRunThink : GameState → Bool × GameState
  PlayerThink : GameState → GameState
  PreThink : GameState → GameState
  Think : GameState → GameState
  ProcessMovement : GameState → GameState
  ProcessImpacts : GameState → GameState
  PostThink : GameState → GameState
  FinishTrackPredictionErrors : GameState → GameState

/-- The calls that leave the file, in the order they are made. -/
inductive Event where
  | Warning
  | StartTrackPredictionErrors
  | CommentarySystem_PePlayerRunCommand
  | SelectItem (name : String) (subtype : Int)
  | UpdateButtonState (mask : Nat)
  | PhysicsRunThink (result : Bool)
  | PlayerThink
  | PreThink
  | Think
  | SetCollisionBounds (mins maxs : Vec3)
  | ProcessMovement
  | ProcessImpacts
  | PostThink
  | FinishTrackPredictionErrors
deriving DecidableEq, Repr

/-- A game state together with the log of the calls made so far. -/
structure Exec where
  st : GameState
  log : List Event

/-- Run a callback and log it. -/
def Exec.call (ev : Event) (h : GameState → GameState) (e : Exec) : Exec :=
  ⟨h e.st, e.log ++ [ev]⟩

/-- A state change made by the file itself. -/
def Exec.modify (f : GameState → GameState) (e : Exec) : Exec :=
  ⟨f e.st, e.log⟩

/-- The player method `SetCollisionBounds(mins, maxs)`: writes the OBB. -/
def SetCollisionBounds (mins maxs : Vec3) (e : Exec) : Exec :=
  ⟨{ e.st with player := { e.st.player with OBBMins := mins, OBBMaxs := maxs } },
   e.log ++ [Event.SetCollisionBounds mins maxs]⟩

/-- The bit complement `~d` of a 32-bit mask. -/
def bitNot32 (d : Nat) : Nat := d ^^^ (2 ^ 32 - 1)

/-! ## Operations -/

/-- Modelled from the spec: `clamp` is declared outside the file; the spec says
the pitch is "clamped to [-90, 90]", so a value below the lower bound becomes the
lower bound, one above the upper bound the upper bound, any other is kept. -/
def clamp (val minVal maxVal : ℚ) : ℚ :=
  if val < minVal then minVal else if val > maxVal then maxVal else val

/-- Modelled from the spec: `ApplyAbsVelocityImpulse` is declared outside the
file; the spec says the impulse is applied "to the player's absolute velocity",
so it is added to it. -/
def ApplyAbsVelocityImpulse (impulse : Vec3) (p : CBasePlayer) : CBasePlayer :=
  { p with absVelocity := p.absVelocity.add impulse }

/-- The body of `CPlayerMove::StartCommand`; `ResetInstanceCounters` touches
nothing the file reads. -/
def StartCommand (s : GameState) : GameState :=
  { s with
    player := { s.player with m_pCurrentCommand := true }
    gpGlobals := { s.gpGlobals with predictionRandomSeed := true, predictionPlayer := true } }

/-- The body of `CPlayerMove::FinishCommand`. -/
def FinishCommand (s : GameState) : GameState :=
  { s with
    player := { s.player with m_pCurrentCommand := false }
    gpGlobals := { s.gpGlobals with predictionRandomSeed := false, predictionPlayer := false } }

/-- The conveyor branch of `CheckMovingGround` (lines 103-117). -/
def CheckMovingGround_conveyor (p : CBasePlayer) : CBasePlayer :=
  if p.flags.FL_ONGROUND then
    match p.groundEntity with
    | some groundentity =>
      if groundentity.FL_CONVEYOR then
        let vecNewVelocity := groundentity.groundVelocityToApply
        let vecNewVelocity :=
          if p.flags.FL_BASEVELOCITY then vecNewVelocity.add p.baseVelocity else vecNewVelocity
        { p with baseVelocity := vecNewVelocity,
                 flags := { p.flags with FL_BASEVELOCITY := true } }
      else p
    | none => p
  else p

/-- The momentum branch and the final flag removal of `CheckMovingGround`
(lines 119-126). -/
def CheckMovingGround_momentum (frametime : ℚ) (p : CBasePlayer) : CBasePlayer :=
  let p :=
    if !p.flags.FL_BASEVELOCITY then
      let p := ApplyAbsVelocityImpulse (Vec3.smul (1 + frametime * (1 / 2)) p.baseVelocity) p
      { p with baseVelocity := vec3_origin }
    else p
  { p with flags := { p.flags with FL_BASEVELOCITY := false } }

/-- The body of `CPlayerMove::CheckMovingGround`. -/
def CheckMovingGround (frametime : ℚ) (p : CBasePlayer) : CBasePlayer :=
  CheckMovingGround_momentum frametime (CheckMovingGround_conveyor p)

/-- The body of `CPlayerMove::SetupMove`. -/
def SetupMove (env : Env) (s : GameState) : GameState :=
  let player := s.player
  let ucmd := s.ucmd
  let move := s.g_pMoveData
  let move := { move with m_bFirstRunOfFunctions := true, m_bGameCodeMovedPlayer := false }
  let move :=
    if player.previouslyPredictedOrigin ≠ player.absOrigin then
      { move with m_bGameCodeMovedPlayer := true }
    else move
  let move := { move with m_nImpulseCommand := ucmd.impulse, m_vecViewAngles := ucmd.viewangles }
  let move :=
    match player.moveParent with
    | none => { move with m_vecAbsViewAngles := move.m_vecViewAngles }
    | some parentToWorld =>
      let viewToParent := env.AngleMatrix move.m_vecViewAngles
      let viewToWorld := env.ConcatTransforms parentToWorld viewToParent
      { move with m_vecAbsViewAngles := env.MatrixAngles viewToWorld }
  let move := { move with m_nButtons := ucmd.buttons }
  let move :=
    if player.flags.FL_ATCONTROLS then
      { move with m_flForwardMove := 0, m_flSideMove := 0, m_flUpMove := 0 }
    else
      { move with m_flForwardMove := ucmd.forwardmove, m_flSideMove := ucmd.sidemove,
                  m_flUpMove := ucmd.upmove }
  let move :=
    { move with
      m_flClientMaxSpeed := player.m_flMaxspeed
      m_nOldButtons := player.m_nOldButtons
      m_vecAngles := player.v_angle
      m_vecVelocity := player.absVelocity
      absOrigin := player.absOrigin }
  let move :=
    match player.m_hConstraintEntity with
    | some origin => { move with m_vecConstraintCenter := origin }
    | none => { move with m_vecConstraintCenter := player.m_vecConstraintCenter }
  let move :=
    { move with
      m_flConstraintRadius := player.m_flConstraintRadius
      m_flConstraintWidth := player.m_flConstraintWidth
      m_flConstraintSpeedFactor := player.m_flConstraintSpeedFactor }
  { s with g_pMoveData := move }

/-- The pitch `FinishMove` computes from `move->m_vecAngles[PITCH]` (lines 223-228). -/
def FinishMove_pitch (pitch : ℚ) : ℚ :=
  let pitch := if pitch > 180 then pitch - 360 else pitch
  clamp pitch (-90) 90

/-- The body of `CPlayerMove::FinishMove`. -/
def FinishMove (s : GameState) : GameState :=
  let player := s.player
  let move := s.g_pMoveData
  let player :=
    { player with
      absOrigin := move.absOrigin
      absVelocity := move.m_vecVelocity
      previouslyPredictedOrigin := move.absOrigin
      m_nOldButtons := move.m_nButtons }
  let pitch := FinishMove_pitch move.m_vecAngles.pitch
  let move := { move with m_vecAngles := { move.m_vecAngles with pitch := pitch } }
  let player := { player with bodyPitch := pitch }
  let player := { player with localAngles := move.m_vecAngles }
  { s with player := player, g_pMoveData := move }

/-- The body of `CPlayerMove::RunPreThink`. -/
def RunPreThink (hooks : Hooks) (e : Exec) : Exec :=
  let r := hooks.PhysicsRunThink e.st
  let e : Exec := ⟨r.2, e.log ++ [Event.PhysicsRunThink r.1]⟩
  if !r.1 then e
  else
    let e := e.call Event.PlayerThink hooks.PlayerThink
    e.call Event.PreThink hooks.PreThink

/-- The body of `CPlayerMove::RunThink` (its `frametime` argument is not read). -/
def RunThink (cfg : Cfg) (hooks : Hooks) (e : Exec) : Exec :=
  let thinktick := e.st.player.nextThinkTick
  if thinktick ≤ 0 ∨ thinktick > e.st.player.m_nTickBase then e
  else
    let e := e.modify fun s =>
      { s with player := { s.player with nextThinkTick := cfg.TICK_NEVER_THINK } }
    e.call Event.Think hooks.Think

/-- The body of `CPlayerMove::RunPostThink`. -/
def RunPostThink (hooks : Hooks) (e : Exec) : Exec :=
  e.call Event.PostThink hooks.PostThink

set_option linter.unusedVariables false in
/-- The body of `CPlayerMove::PreventJumpBug`. -/
def PreventJumpBug (cfg : Cfg) (env : Env) (hooks : Hooks) (e : Exec) : Exec :=
  let player := e.st.player
  let mins := player.OBBMins
  let maxs := player.OBBMaxs
  let origin := player.absOrigin
  let newOrigin := player.absOrigin
  let hullSizeNormal := cfg.VEC_HULL_MAX.sub cfg.VEC_HULL_MIN
  let hullSizeCrouch := cfg.VEC_DUCK_HULL_MAX.sub cfg.VEC_DUCK_HULL_MIN
  let newOrigin :=
    newOrigin.add (Vec3.smul (-cfg.viewScale) (hullSizeNormal.sub hullSizeCrouch))
  let trace := env.UTIL_TraceHull origin newOrigin cfg.VEC_HULL_MIN cfg.VEC_HULL_MAX
  if trace.startsolid ∨ trace.fraction ≠ 1 then e
  else
    let origin := newOrigin
    let mins := cfg.VEC_HULL_MIN
    let maxs := cfg.VEC_HULL_MAX
    let offset : Vec3 := ⟨0, 0, cfg.sv_considered_on_ground⟩
    let pm := env.UTIL_TraceRay origin (origin.sub offset) mins maxs
    if pm.DidHit ∧ pm.planeNormal.z ≥ 7 / 10 then
      let newMins : Vec3 := ⟨mins.x, mins.y, mins.z - (player.absOrigin.z - pm.endpos.z)⟩
      let e := SetCollisionBounds newMins maxs e
      let e := e.call Event.ProcessImpacts hooks.ProcessImpacts
      let e := SetCollisionBounds mins maxs e
      e.modify fun s =>
        { s with player := { s.player with flags := { s.player.flags with FL_BASEVELOCITY := false } } }
    else e

/-- The local `playerFrameTime` of `RunCommand` (line 390). -/
def playerFrameTime (cfg : Cfg) (p : CBasePlayer) : ℚ :=
  if p.m_bGamePaused then 0 else cfg.TICK_INTERVAL

/-- The test of line 392: the frame is not processed. -/
def dropsFrame (cfg : Cfg) (env : Env) (p : CBasePlayer) : Prop :=
  let flTimeAllowedForProcessing :=
    env.ConsumeMovementTimeForUserCmdProcessing (playerFrameTime cfg p)
  ¬ p.IsBot = true ∧ flTimeAllowedForProcessing < playerFrameTime cfg p

instance (cfg : Cfg) (env : Env) (p : CBasePlayer) : Decidable (dropsFrame cfg env p) := by
  unfold dropsFrame
  exact inferInstance

/-- The early exit of `RunCommand` (lines 394-406). -/
def RunCommand_dropped (cfg : Cfg) (env : Env) (e : Exec) : Exec :=
  let dblWarningFrequencyThrottle := cfg.sv_maxusrcmdprocessticks_warning
  if dblWarningFrequencyThrottle ≥ 0 then
    let dblTimeNow := env.Plat_FloatTime
    if e.st.s_dblLastWarningTime = 0 ∨
        dblTimeNow - e.st.s_dblLastWarningTime ≥ dblWarningFrequencyThrottle then
      ⟨{ e.st with s_dblLastWarningTime := dblTimeNow }, e.log ++ [Event.Warning]⟩
    else e
  else e

/-- Lines 412-413 of `RunCommand`: the globals are set. -/
def RunCommand_setGlobals (playerCurTime playerFrameTime : ℚ) (s : GameState) : GameState :=
  { s with gpGlobals := { s.gpGlobals with curtime := playerCurTime, frametime := playerFrameTime } }

/-- Lines 416-419 of `RunCommand`: invalid view angles are replaced. -/
def RunCommand_checkViewAngles (env : Env) (s : GameState) : GameState :=
  if !env.IsValid s.ucmd.viewangles || !env.IsEntityQAngleReasonable s.ucmd.viewangles then
    { s with ucmd := { s.ucmd with viewangles := vec3_angle } }
  else s

/-- Lines 422-423 of `RunCommand`: forced buttons are added, disabled ones removed. -/
def RunCommand_forceButtons (s : GameState) : GameState :=
  let s := { s with ucmd := { s.ucmd with buttons := s.ucmd.buttons ||| s.player.m_afButtonForced } }
  { s with ucmd := { s.ucmd with buttons := s.ucmd.buttons &&& bitNot32 s.player.m_afButtonDisabled } }

/-- Lines 425-435 of `RunCommand`: noclip during pause. -/
def RunCommand_pause (cfg : Cfg) (s : GameState) : GameState :=
  if s.player.m_bGamePaused then
    if s.player.moveType = MoveType.MOVETYPE_NOCLIP ∧ cfg.sv_cheats ∧ cfg.sv_noclipduringpause then
      { s with gpGlobals := { s.gpGlobals with frametime := cfg.TICK_INTERVAL } }
    else s
  else s

/-- Lines 451-459 of `RunCommand`: weapon selection. -/
def RunCommand_selectWeapon (env : Env) (hooks : Hooks) (e : Exec) : Exec :=
  if e.st.ucmd.weaponselect ≠ 0 then
    match env.weaponInstance e.st.ucmd.weaponselect with
    | some name =>
      e.call (Event.SelectItem name e.st.ucmd.weaponsubtype)
        (hooks.SelectItem name e.st.ucmd.weaponsubtype)
    | none => e
  else e

/-- Lines 462-465 of `RunCommand`: the impulse latch. -/
def RunCommand_latchImpulse (s : GameState) : GameState :=
  if s.ucmd.impulse ≠ 0 then { s with player := { s.player with m_nImpulse := s.ucmd.impulse } }
  else s

/-- The command intake of `RunCommand` up to the impulse latch (lines 409-465). -/
def RunCommand_intake (cfg : Cfg) (env : Env) (hooks : Hooks)
    (playerCurTime playerFrameTime : ℚ) (e : Exec) : Exec :=
  let e := e.modify StartCommand
  let e := e.modify (RunCommand_setGlobals playerCurTime playerFrameTime)
  let e := e.modify (RunCommand_checkViewAngles env)
  let e := e.modify RunCommand_forceButtons
  let e := e.modify (RunCommand_pause cfg)
  let e := e.call Event.StartTrackPredictionErrors hooks.StartTrackPredictionErrors
  let e := e.call Event.CommentarySystem_PePlayerRunCommand hooks.CommentarySystem_PePlayerRunCommand
  let e := RunCommand_selectWeapon env hooks e
  e.modify RunCommand_latchImpulse

/-- The command intake of `RunCommand` with the button latch (lines 409-470). -/
def RunCommand_input (cfg : Cfg) (env : Env) (hooks : Hooks)
    (playerCurTime playerFrameTime : ℚ) (e : Exec) : Exec :=
  let e := RunCommand_intake cfg env hooks playerCurTime playerFrameTime e
  e.call (Event.UpdateButtonState e.st.ucmd.buttons) (hooks.UpdateButtonState e.st.ucmd.buttons)

/-- The test of lines 501-504 that guards `PreventJumpBug`. -/
def jumpBugGuard (cfg : Cfg) (p : CBasePlayer) : Bool :=
  cfg.sv_ground_trigger_fix &&
  p.groundEntity.isNone && !p.m_CurrentSlideTrigger &&
  p.flags.FL_DUCKING && decide (p.m_afButtonReleased &&& cfg.IN_DUCK ≠ 0) &&
  (decide (p.m_afButtonPressed &&& cfg.IN_JUMP ≠ 0) ||
    (p.HasAutoBhop && decide (p.m_nButtons &&& cfg.IN_JUMP ≠ 0)))

/-- Line 472 of `RunCommand`: `CheckMovingGround( player, TICK_INTERVAL )`. -/
def RunCommand_movingGround (cfg : Cfg) (s : GameState) : GameState :=
  { s with player := CheckMovingGround cfg.TICK_INTERVAL s.player }

/-- Line 474 of `RunCommand`: the old view angle is kept in the move context. -/
def RunCommand_oldAngles (s : GameState) : GameState :=
  { s with g_pMoveData := { s.g_pMoveData with m_vecOldAngles := s.player.v_angle } }

/-- Lines 477-484 of `RunCommand`: the command's view angle is copied unless
`fixangle` says otherwise. -/
def RunCommand_fixangle (s : GameState) : GameState :=
  match s.player.fixangle with
  | FixAngle.FIXANGLE_NONE =>
    { s with player := { s.player with v_angle := s.ucmd.viewangles } }
  | FixAngle.FIXANGLE_RELATIVE =>
    { s with player := { s.player with v_angle := s.ucmd.viewangles.add s.player.anglechange } }
  | FixAngle.FIXANGLE_ABSOLUTE => s

/-- Line 492 of `RunCommand`. -/
def RunCommand_oldOrigin (s : GameState) : GameState :=
  { s with player := { s.player with m_vecOldOrigin := s.player.absOrigin } }

/-- Lines 501-507 of `RunCommand`: the guarded call of `PreventJumpBug`. -/
def RunCommand_jumpBug (cfg : Cfg) (env : Env) (hooks : Hooks) (e : Exec) : Exec :=
  if jumpBugGuard cfg e.st.player then PreventJumpBug cfg env hooks e else e

/-- The think part of `RunCommand` (lines 472-507): moving ground, view angle
commit, pre-think, think and the jump-bug check. -/
def RunCommand_think (cfg : Cfg) (env : Env) (hooks : Hooks) (e : Exec) : Exec :=
  let e := e.modify (RunCommand_movingGround cfg)
  let e := e.modify RunCommand_oldAngles
  let e := e.modify RunCommand_fixangle
  let e := RunPreThink hooks e
  let e := RunThink cfg hooks e
  let e := e.modify RunCommand_oldOrigin
  RunCommand_jumpBug cfg env hooks e

/-- The state handed to the movement engine: `SetupMove` on the outcome of the
earlier stages (line 510). -/
def RunCommand_setup (env : Env) (e : Exec) : Exec :=
  e.modify (SetupMove env)

/-- The movement solve and its commit (lines 515-518). -/
def RunCommand_solve (hooks : Hooks) (e : Exec) : Exec :=
  let e := e.call Event.ProcessMovement hooks.ProcessMovement
  e.modify FinishMove

/-- The view-angle restore of `RunCommand` (lines 521-524). -/
def RunCommand_viewLock (cfg : Cfg) (e : Exec) : Exec :=
  e.modify fun s =>
    if ¬ s.player.IsBot = true ∧
        s.gpGlobals.tickcount - s.player.lockViewanglesTickNumber
          < cfg.sv_maxusrcmdprocessticks_holdaim then
      { s with player := { s.player with v_angle := s.player.lockViewanglesData } }
    else s

/-- The test of lines 532-533: the ground-trigger fix applies. -/
def groundTriggerFix (cfg : Cfg) (s : GameState) : Prop :=
  cfg.sv_ground_trigger_fix = true ∧ s.player.groundEntity.isSome = true ∧
    (s.g_pMoveData.m_vecGroundPosition.sub s.player.absOrigin).z < s.player.OBBMins.z

instance (cfg : Cfg) (s : GameState) : Decidable (groundTriggerFix cfg s) := by
  unfold groundTriggerFix
  exact inferInstance

/-- The impact phase of `RunCommand` (lines 529-554). -/
def RunCommand_impacts (cfg : Cfg) (hooks : Hooks) (e : Exec) : Exec :=
  let mins := e.st.player.OBBMins
  let maxs := e.st.player.OBBMaxs
  if groundTriggerFix cfg e.st then
    let newMins : Vec3 :=
      ⟨mins.x, mins.y, (e.st.g_pMoveData.m_vecGroundPosition.sub e.st.player.absOrigin).z⟩
    let e := SetCollisionBounds newMins maxs e
    let e := e.call Event.ProcessImpacts hooks.ProcessImpacts
    SetCollisionBounds mins maxs e
  else
    e.call Event.ProcessImpacts hooks.ProcessImpacts

/-- The end of `RunCommand` (lines 556-566): post-think, command finish and the
tick advance. -/
def RunCommand_finish (hooks : Hooks) (e : Exec) : Exec :=
  let e := RunPostThink hooks e
  let e := e.call Event.FinishTrackPredictionErrors hooks.FinishTrackPredictionErrors
  let e := e.modify FinishCommand
  e.modify fun s =>
    if s.gpGlobals.frametime > 0 then
      { s with player := { s.player with m_nTickBase := s.player.m_nTickBase + 1 } }
    else s

/-- The state of an accepted frame when the movement engine is called: lines
409-510 of `RunCommand`, `SetupMove` included. -/
def RunCommand_marshalled (cfg : Cfg) (env : Env) (hooks : Hooks) (e : Exec) : Exec :=
  let playerCurTime := (e.st.player.m_nTickBase : ℚ) * cfg.TICK_INTERVAL
  RunCommand_setup env
    (RunCommand_think cfg env hooks
      (RunCommand_input cfg env hooks playerCurTime (playerFrameTime cfg e.st.player) e))

/-- The state of an accepted frame right after `FinishMove` (line 518). -/
def RunCommand_committed (cfg : Cfg) (env : Env) (hooks : Hooks) (e : Exec) : Exec :=
  RunCommand_solve hooks (RunCommand_marshalled cfg env hooks e)

/-- The body of `CPlayerMove::RunCommand`. -/
def RunCommand (cfg : Cfg) (env : Env) (hooks : Hooks) (e : Exec) : Exec :=
  if dropsFrame cfg env e.st.player then RunCommand_dropped cfg env e
  else
    RunCommand_finish hooks
      (RunCommand_impacts cfg hooks (RunCommand_viewLock cfg (RunCommand_committed cfg env hooks e)))

/-! ## Vocabulary of the statements -/

/-- The calls that are neither a think hook, nor the movement solve, nor the
button latch, nor the prediction-error brackets: weapon selection, the scheduled
think, bound changes and impact resolution. -/
def Event.isAux : Event → Bool
  | Event.SelectItem _ _ => true
  | Event.Think => true
  | Event.SetCollisionBounds _ _ => true
  | Event.ProcessImpacts => true
  | _ => false

/-- Every callback leaves the quantity `f` of the game state as it was. -/
structure Hooks.Keep {α : Type} (hooks : Hooks) (f : GameState → α) : Prop where
  StartTrackPredictionErrors : ∀ s, f (hooks.StartTrackPredictionErrors s) = f s
  CommentarySystem_PePlayerRunCommand :
    ∀ s, f (hooks.CommentarySystem_PePlayerRunCommand s) = f s
  SelectItem : ∀ n k s, f (hooks.SelectItem n k s) = f s
  UpdateButtonState : ∀ m s, f (hooks.UpdateButtonState m s) = f s
  PhysicsRunThink : ∀ s, f (hooks.PhysicsRunThink s).2 = f s
  PlayerThink : ∀ s, f (hooks.PlayerThink s) = f s
  PreThink : ∀ s, f (hooks.PreThink s) = f s
  Think : ∀ s, f (hooks.Think s) = f s
  ProcessMovement : ∀ s, f (hooks.ProcessMovement s) = f s
  ProcessImpacts : ∀ s, f (hooks.ProcessImpacts s) = f s
  PostThink : ∀ s, f (hooks.PostThink s) = f s
  FinishTrackPredictionErrors : ∀ s, f (hooks.FinishTrackPredictionErrors s) = f s

/-- The command's button mask, the frame duration in the globals and the
player's tick base. -/
def frameOf (s : GameState) : Nat × ℚ × Int :=
  (s.ucmd.buttons, s.gpGlobals.frametime, s.player.m_nTickBase)

/-- The quantity `f` is read off the button mask, the frame duration and the
tick base alone. -/
def FrameOnly {α : Type} (f : GameState → α) : Prop :=
  ∀ s t, frameOf s = frameOf t → f s = f t

/-- The game state on which the callbacks of an accepted frame first run: the
state of entry after lines 409-435 of `RunCommand`. -/
def RunCommand_prepared (cfg : Cfg) (env : Env) (s : GameState) : GameState :=
  RunCommand_pause cfg (RunCommand_forceButtons (RunCommand_checkViewAngles env
    (RunCommand_setGlobals ((s.player.m_nTickBase : ℚ) * cfg.TICK_INTERVAL)
      (playerFrameTime cfg s.player) (StartCommand s))))

/-! ## Sample inputs -/

/-- Sample constants: a 66.67 Hz tick, the usual hulls and default convars. -/
def cfg0 : Cfg where
  TICK_INTERVAL := 3 / 200
  TICK_NEVER_THINK := -1
  VEC_HULL_MIN := ⟨-16, -16, 0⟩
  VEC_HULL_MAX := ⟨16, 16, 62⟩
  VEC_DUCK_HULL_MIN := ⟨-16, -16, 0⟩
  VEC_DUCK_HULL_MAX := ⟨16, 16, 45⟩
  IN_JUMP := 2
  IN_DUCK := 4
  viewScale := 1
  sv_maxusrcmdprocessticks_warning := -1
  sv_maxusrcmdprocessticks_holdaim := 1
  sv_ground_trigger_fix := true
  sv_considered_on_ground := 2
  sv_cheats := false
  sv_noclipduringpause := false

/-- A sample trace that hits nothing. -/
def traceClear : trace_t := ⟨false, 1, false, ⟨0, 0, 0⟩, ⟨0, 0, 0⟩⟩

/-- Sample queries: the full tick is granted, every angle is valid, there is no
weapon and no geometry. -/
def env0 : Env where
  ConsumeMovementTimeForUserCmdProcessing := fun t => t
  Plat_FloatTime := 100
  IsValid := fun _ => true
  IsEntityQAngleReasonable := fun _ => true
  weaponInstance := fun _ => none
  UTIL_TraceHull := fun _ _ _ _ => traceClear
  UTIL_TraceRay := fun _ _ _ _ => traceClear
  AngleMatrix := fun _ _ _ => 0
  ConcatTransforms := fun a _ => a
  MatrixAngles := fun _ => vec3_angle

/-- Sample queries that grant no movement time. -/
def envNoTime : Env :=
  { env0 with ConsumeMovementTimeForUserCmdProcessing := fun _ => 0 }

/-- Callbacks that leave the game state alone; `PhysicsRunThink` returns `true`. -/
def hooks0 : Hooks where
  StartTrackPredictionErrors := id
  CommentarySystem_PePlayerRunCommand := id
  SelectItem := fun _ _ => id
  UpdateButtonState := fun _ => id
  PhysicsRunThink := fun s => (true, s)
  PlayerThink := id
  PreThink := id
  Think := id
  ProcessMovement := id
  ProcessImpacts := id
  PostThink := id
  FinishTrackPredictionErrors := id

/-- A sample human player standing still on the ground at tick 10. -/
def player0 : CBasePlayer where
  m_nTickBase := 10
  m_bGamePaused := false
  IsBot := false
  m_pCurrentCommand := false
  m_afButtonForced := 0
  m_afButtonDisabled := 0
  m_nButtons := 0
  m_afButtonPressed := 0
  m_afButtonReleased := 0
  m_nImpulse := 0
  moveType := MoveType.MOVETYPE_OTHER
  flags := ⟨true, false, false, false⟩
  groundEntity := some ⟨false, ⟨0, 0, 0⟩⟩
  baseVelocity := ⟨0, 0, 0⟩
  absVelocity := ⟨0, 0, 0⟩
  absOrigin := ⟨0, 0, 0⟩
  previouslyPredictedOrigin := ⟨0, 0, 0⟩
  m_vecOldOrigin := ⟨0, 0, 0⟩
  v_angle := ⟨0, 0, 0⟩
  fixangle := FixAngle.FIXANGLE_NONE
  anglechange := ⟨0, 0, 0⟩
  nextThinkTick := -1
  OBBMins := ⟨-16, -16, 0⟩
  OBBMaxs := ⟨16, 16, 62⟩
  m_nOldButtons := 0
  m_flMaxspeed := 260
  moveParent := none
  m_hConstraintEntity := none
  m_vecConstraintCenter := ⟨0, 0, 0⟩
  m_flConstraintRadius := 0
  m_flConstraintWidth := 0
  m_flConstraintSpeedFactor := 0
  lockViewanglesTickNumber := 0
  lockViewanglesData := ⟨0, 90, 0⟩
  bodyPitch := 0
  localAngles := ⟨0, 0, 0⟩
  m_CurrentSlideTrigger := false
  HasAutoBhop := false

/-- A sample command: forward, attack held, impulse 100. -/
def ucmd0 : CUserCmd := ⟨⟨10, 20, 0⟩, 9, 100, 0, 0, 400, 0, 0⟩

/-- A sample move context. -/
def move0 : CMoveData where
  m_bFirstRunOfFunctions := false
  m_bGameCodeMovedPlayer := false
  m_nImpulseCommand := 0
  m_vecViewAngles := ⟨0, 0, 0⟩
  m_vecAbsViewAngles := ⟨0, 0, 0⟩
  m_vecAngles := ⟨0, 0, 0⟩
  m_vecOldAngles := ⟨0, 0, 0⟩
  m_nButtons := 0
  m_nOldButtons := 0
  m_flForwardMove := 0
  m_flSideMove := 0
  m_flUpMove := 0
  m_flClientMaxSpeed := 0
  m_vecVelocity := ⟨0, 0, 0⟩
  absOrigin := ⟨0, 0, 0⟩
  m_vecGroundPosition := ⟨0, 0, 0⟩
  m_vecConstraintCenter := ⟨0, 0, 0⟩
  m_flConstraintRadius := 0
  m_flConstraintWidth := 0
  m_flConstraintSpeedFactor := 0

/-- Sample globals at server tick 50. -/
def globals0 : Globals := ⟨0, 0, 50, false, false⟩

/-- A sample game state. -/
def state0 : GameState := ⟨player0, ucmd0, move0, globals0, 0⟩

/-- A sample run with an empty log. -/
def exec0 : Exec := ⟨state0, []⟩

/-- A sample ducked player in the air, 20 units up, with the ducked hull, who
has just released duck and pressed jump. -/
def playerDucked : CBasePlayer :=
  { player0 with
    flags := ⟨false, true, false, false⟩
    m_nButtons := 2
    m_afButtonPressed := 2
    m_afButtonReleased := 4
    groundEntity := none
    absOrigin := ⟨0, 0, 20⟩
    OBBMins := ⟨-16, -16, 0⟩
    OBBMaxs := ⟨16, 16, 45⟩ }

/-- A sample run for the ducked player. -/
def execDucked : Exec := ⟨{ state0 with player := playerDucked }, []⟩

/-- Sample geometry: the un-duck sweep is free and the downward ray hits a flat
floor at height 2. -/
def envFloor : Env :=
  { env0 with UTIL_TraceRay := fun _ _ _ _ => ⟨false, 1 / 2, true, ⟨0, 0, 1⟩, ⟨0, 0, 2⟩⟩ }

/-- A sample grounded player a quarter unit above the reported ground point. -/
def execAboveGround : Exec :=
  ⟨{ state0 with player := { player0 with absOrigin := ⟨0, 0, 1 / 4⟩ } }, []⟩

/-- A sample human player whose view was forced at the current server tick 50. -/
def execLocked : Exec :=
  ⟨{ state0 with player := { player0 with lockViewanglesTickNumber := 50 } }, []⟩

/-- A sample bot whose view was forced at the current server tick 50. -/
def execBotLocked : Exec :=
  ⟨{ state0 with player := { player0 with lockViewanglesTickNumber := 50, IsBot := true } }, []⟩

/-- Callbacks that leave the game state alone; `PhysicsRunThink` returns `false`. -/
def hooksNoThink : Hooks :=
  { hooks0 with PhysicsRunThink := fun s => (false, s) }

/-- Sample constants with `sv_cheats` and `sv_noclipduringpause` switched on. -/
def cfgNoclipPause : Cfg :=
  { cfg0 with sv_cheats := true, sv_noclipduringpause := true }

/-- A sample paused game with the player in noclip. -/
def execPausedNoclip : Exec :=
  ⟨{ state0 with
     player := { player0 with m_bGamePaused := true, moveType := MoveType.MOVETYPE_NOCLIP } }, []⟩

/-- A sample state whose move context holds the pitch 270. -/
def statePitch270 : GameState :=
  { state0 with g_pMoveData := { move0 with m_vecAngles := ⟨270, 30, 0⟩ } }

/-- A sample run whose scheduled-think tick is 0, at tick base 10. -/
def execThinkZero : Exec :=
  ⟨{ state0 with player := { player0 with nextThinkTick := 0 } }, []⟩

/-- A sample run whose scheduled-think tick 7 is due at tick base 10. -/
def execThinkDue : Exec :=
  ⟨{ state0 with player := { player0 with nextThinkTick := 7 } }, []⟩

/-- A sample player on a conveyor moving at (2, 0, 0), with a base velocity
(1, 0, 0) left over and the base-velocity flag clear. -/
def playerOnConveyor : CBasePlayer :=
  { player0 with
    groundEntity := some ⟨true, ⟨2, 0, 0⟩⟩
    baseVelocity := ⟨1, 0, 0⟩
    absVelocity := ⟨5, 0, 0⟩ }

/-- The same player with the base-velocity flag set on entry. -/
def playerOnConveyorPending : CBasePlayer :=
  { playerOnConveyor with flags := ⟨true, false, false, true⟩ }

/-- A sample run in which the server forces attack (bit 0) on and disables jump
(bit 1), while the client reports jump and forward (bits 1 and 3). -/
def execForced : Exec :=
  ⟨{ state0 with
     player := { player0 with m_afButtonForced := 1, m_afButtonDisabled := 2 }
     ucmd := { ucmd0 with buttons := 10 } }, []⟩

/-- A sample airborne player carrying a base velocity (4, 0, 0) with the
base-velocity flag clear, moving at (5, 0, 0). -/
def playerLeftPlatform : CBasePlayer :=
  { player0 with
    flags := ⟨false, false, false, false⟩
    groundEntity := none
    baseVelocity := ⟨4, 0, 0⟩
    absVelocity := ⟨5, 0, 0⟩ }

/-! ## Theorems -/

/-! ### The log of each stage -/

/-- A write by the file logs nothing. -/
@[simp] theorem Exec.modify_log (f : GameState → GameState) (e : Exec) :
    (e.modify f).log = e.log := rfl

/-- A write by the file acts on the state. -/
@[simp] theorem Exec.modify_st (f : GameState → GameState) (e : Exec) :
    (e.modify f).st = f e.st := rfl

/-- A call appends its event to the log. -/
@[simp] theorem Exec.call_log (ev : Event) (h : GameState → GameState) (e : Exec) :
    (e.call ev h).log = e.log ++ [ev] := rfl

/-- A call applies the callback to the state. -/
@[simp] theorem Exec.call_st (ev : Event) (h : GameState → GameState) (e : Exec) :
    (e.call ev h).st = h e.st := rfl

/-- A list of auxiliary calls counts no other call. -/
theorem count_eq_zero_of_isAux (evs : List Event) (a : Event)
    (h : ∀ ev ∈ evs, ev.isAux = true) (ha : a.isAux = false) : evs.count a = 0 := by
  rw [List.count_eq_zero]
  intro hmem
  have h1 := h a hmem
  rw [ha] at h1
  exact Bool.noConfusion h1

/-- Weapon selection logs at most a `SelectItem`. -/
theorem RunCommand_selectWeapon_log (env : Env) (hooks : Hooks) (e : Exec) :
    ∃ sel, (RunCommand_selectWeapon env hooks e).log = e.log ++ sel ∧
      ∀ ev ∈ sel, ev.isAux = true := by
  unfold RunCommand_selectWeapon
  split
  · split
    · exact ⟨[_], rfl, by simp [Event.isAux]⟩
    · exact ⟨[], by simp, by simp⟩
  · exact ⟨[], by simp, by simp⟩

/-- The log of the command intake. -/
theorem RunCommand_input_log (cfg : Cfg) (env : Env) (hooks : Hooks) (t ft : ℚ) (e : Exec) :
    ∃ sel, (RunCommand_input cfg env hooks t ft e).log =
        e.log ++ ([Event.StartTrackPredictionErrors, Event.CommentarySystem_PePlayerRunCommand]
          ++ sel
          ++ [Event.UpdateButtonState (RunCommand_intake cfg env hooks t ft e).st.ucmd.buttons]) ∧
      ∀ ev ∈ sel, ev.isAux = true := by
  obtain ⟨sel, hsel, haux⟩ := RunCommand_selectWeapon_log env hooks
    (((((((e.modify StartCommand).modify (RunCommand_setGlobals t ft)).modify
      (RunCommand_checkViewAngles env)).modify RunCommand_forceButtons).modify
      (RunCommand_pause cfg)).call Event.StartTrackPredictionErrors
      hooks.StartTrackPredictionErrors).call Event.CommentarySystem_PePlayerRunCommand
      hooks.CommentarySystem_PePlayerRunCommand)
  refine ⟨sel, ?_, haux⟩
  have hin : (RunCommand_intake cfg env hooks t ft e).log =
      e.log ++ ([Event.StartTrackPredictionErrors, Event.CommentarySystem_PePlayerRunCommand]
        ++ sel) := by
    simp [RunCommand_intake, hsel]
  simp [RunCommand_input, hin]

/-- The log of `RunPreThink`: the two hooks follow a `PhysicsRunThink` that
returned `true`, and only that. -/
theorem RunPreThink_log (hooks : Hooks) (e : Exec) :
    (RunPreThink hooks e).log = e.log ++
      Event.PhysicsRunThink (hooks.PhysicsRunThink e.st).1 ::
        (if (hooks.PhysicsRunThink e.st).1 = true then [Event.PlayerThink, Event.PreThink]
          else []) := by
  simp only [RunPreThink]
  cases (hooks.PhysicsRunThink e.st).1 <;> simp

/-- The scheduled think logs at most a `Think`. -/
theorem RunThink_log (cfg : Cfg) (hooks : Hooks) (e : Exec) :
    ∃ th, (RunThink cfg hooks e).log = e.log ++ th ∧ ∀ ev ∈ th, ev.isAux = true := by
  simp only [RunThink]
  split
  · exact ⟨[], by simp, by simp⟩
  · exact ⟨[Event.Think], by simp, by simp [Event.isAux]⟩

/-- The jump-bug check logs bound changes and impact resolution only. -/
theorem RunCommand_jumpBug_log (cfg : Cfg) (env : Env) (hooks : Hooks) (e : Exec) :
    ∃ jb, (RunCommand_jumpBug cfg env hooks e).log = e.log ++ jb ∧
      ∀ ev ∈ jb, ev.isAux = true := by
  simp only [RunCommand_jumpBug, PreventJumpBug]
  split_ifs
  · exact ⟨[], by simp, by simp⟩
  · simp only [SetCollisionBounds, Exec.call_log, Exec.modify_log, List.append_assoc]
    exact ⟨_, rfl, by simp [Event.isAux]⟩
  · exact ⟨[], by simp, by simp⟩
  · exact ⟨[], by simp, by simp⟩

/-- The log of the think part: `RunPreThink`, then auxiliary calls. -/
theorem RunCommand_think_log (cfg : Cfg) (env : Env) (hooks : Hooks) (e : Exec) :
    ∃ r aux, (RunCommand_think cfg env hooks e).log = e.log ++
        (Event.PhysicsRunThink r ::
          (if r = true then [Event.PlayerThink, Event.PreThink] else []) ++ aux) ∧
      ∀ ev ∈ aux, ev.isAux = true := by
  simp only [RunCommand_think]
  obtain ⟨jb, hjb, hjbaux⟩ := RunCommand_jumpBug_log cfg env hooks
    ((RunThink cfg hooks (RunPreThink hooks (((e.modify (RunCommand_movingGround cfg)).modify
      RunCommand_oldAngles).modify RunCommand_fixangle))).modify RunCommand_oldOrigin)
  obtain ⟨th, hth, hthaux⟩ := RunThink_log cfg hooks (RunPreThink hooks
    (((e.modify (RunCommand_movingGround cfg)).modify RunCommand_oldAngles).modify
      RunCommand_fixangle))
  refine ⟨(hooks.PhysicsRunThink (((e.modify (RunCommand_movingGround cfg)).modify
    RunCommand_oldAngles).modify RunCommand_fixangle).st).1, th ++ jb, ?_, ?_⟩
  · rw [hjb, Exec.modify_log, hth, RunPreThink_log]
    simp only [Exec.modify_log, List.append_assoc, List.cons_append]
  · intro ev hev
    rcases List.mem_append.mp hev with h | h
    · exact hthaux ev h
    · exact hjbaux ev h

/-- The impact phase logs bound changes and impact resolution only. -/
theorem RunCommand_impacts_log (cfg : Cfg) (hooks : Hooks) (e : Exec) :
    ∃ imp, (RunCommand_impacts cfg hooks e).log = e.log ++ imp ∧
      ∀ ev ∈ imp, ev.isAux = true := by
  simp only [RunCommand_impacts]
  split
  · simp only [SetCollisionBounds, Exec.call_log, List.append_assoc]
    exact ⟨_, rfl, by simp [Event.isAux]⟩
  · exact ⟨[_], rfl, by simp [Event.isAux]⟩

/-- The log of an accepted frame: intake, button latch, pre-think, auxiliary
calls, the movement solve, auxiliary calls, post-think. -/
theorem RunCommand_log (cfg : Cfg) (env : Env) (hooks : Hooks) (e : Exec)
    (hacc : ¬ dropsFrame cfg env e.st.player) :
    ∃ sel r aux imp, (RunCommand cfg env hooks e).log = e.log ++
        ([Event.StartTrackPredictionErrors, Event.CommentarySystem_PePlayerRunCommand]
          ++ sel
          ++ [Event.UpdateButtonState
              (RunCommand_intake cfg env hooks ((e.st.player.m_nTickBase : ℚ) * cfg.TICK_INTERVAL)
                (playerFrameTime cfg e.st.player) e).st.ucmd.buttons]
          ++ (Event.PhysicsRunThink r ::
            (if r = true then [Event.PlayerThink, Event.PreThink] else []))
          ++ aux ++ [Event.ProcessMovement] ++ imp
          ++ [Event.PostThink, Event.FinishTrackPredictionErrors]) ∧
      (∀ ev ∈ sel, ev.isAux = true) ∧ (∀ ev ∈ aux, ev.isAux = true) ∧
      (∀ ev ∈ imp, ev.isAux = true) := by
  obtain ⟨sel, hsel, hselaux⟩ := RunCommand_input_log cfg env hooks
    ((e.st.player.m_nTickBase : ℚ) * cfg.TICK_INTERVAL) (playerFrameTime cfg e.st.player) e
  obtain ⟨r, aux, hth, hauxaux⟩ := RunCommand_think_log cfg env hooks
    (RunCommand_input cfg env hooks ((e.st.player.m_nTickBase : ℚ) * cfg.TICK_INTERVAL)
      (playerFrameTime cfg e.st.player) e)
  obtain ⟨imp, himp, himpaux⟩ := RunCommand_impacts_log cfg hooks
    (RunCommand_viewLock cfg (RunCommand_committed cfg env hooks e))
  refine ⟨sel, r, aux, imp, ?_, hselaux, hauxaux, himpaux⟩
  have hc : (RunCommand_committed cfg env hooks e).log = e.log ++
      ([Event.StartTrackPredictionErrors, Event.CommentarySystem_PePlayerRunCommand]
        ++ sel
        ++ [Event.UpdateButtonState
            (RunCommand_intake cfg env hooks ((e.st.player.m_nTickBase : ℚ) * cfg.TICK_INTERVAL)
              (playerFrameTime cfg e.st.player) e).st.ucmd.buttons]
        ++ (Event.PhysicsRunThink r ::
          (if r = true then [Event.PlayerThink, Event.PreThink] else []))
        ++ aux ++ [Event.ProcessMovement]) := by
    simp only [RunCommand_committed, RunCommand_marshalled, RunCommand_solve, RunCommand_setup,
      Exec.modify_log,
      Exec.call_log, hth, hsel, List.append_assoc, List.cons_append]
  have hv : (RunCommand_viewLock cfg (RunCommand_committed cfg env hooks e)).log
      = (RunCommand_committed cfg env hooks e).log := rfl
  have hr : RunCommand cfg env hooks e = RunCommand_finish hooks (RunCommand_impacts cfg hooks
      (RunCommand_viewLock cfg (RunCommand_committed cfg env hooks e))) := by
    simp only [RunCommand, if_neg hacc]
  rw [hr]
  simp only [RunCommand_finish, RunPostThink, Exec.modify_log, Exec.call_log, himp, hv, hc,
    List.append_assoc, List.cons_append, List.nil_append]

/-! ### Quantities the stages keep -/

/-- `CheckMovingGround` writes none of the frame quantities. -/
theorem frameOf_movingGround (cfg : Cfg) (s : GameState) :
    frameOf (RunCommand_movingGround cfg s) = frameOf s := by
  simp only [frameOf, RunCommand_movingGround, CheckMovingGround, CheckMovingGround_momentum,
    CheckMovingGround_conveyor, ApplyAbsVelocityImpulse]
  split_ifs <;> first | rfl | (split <;> first | rfl | (split_ifs <;> rfl))

/-- The view angle commit writes none of the frame quantities. -/
theorem frameOf_fixangle (s : GameState) : frameOf (RunCommand_fixangle s) = frameOf s := by
  simp only [frameOf, RunCommand_fixangle]
  split <;> rfl

/-- The impulse latch writes none of the frame quantities. -/
theorem frameOf_latchImpulse (s : GameState) :
    frameOf (RunCommand_latchImpulse s) = frameOf s := by
  simp only [frameOf, RunCommand_latchImpulse]
  split <;> rfl

/-- `SetupMove` writes none of the frame quantities. -/
theorem frameOf_SetupMove (env : Env) (s : GameState) : frameOf (SetupMove env s) = frameOf s :=
  rfl

/-- `FinishMove` writes none of the frame quantities. -/
theorem frameOf_FinishMove (s : GameState) : frameOf (FinishMove s) = frameOf s := rfl

/-- `FinishCommand` writes none of the frame quantities. -/
theorem frameOf_FinishCommand (s : GameState) : frameOf (FinishCommand s) = frameOf s := rfl

/-- A write that keeps the frame quantities keeps `f`. -/
theorem keeps_modify {α : Type} (f : GameState → α) (hf : FrameOnly f)
    (w : GameState → GameState) (hw : ∀ s, frameOf (w s) = frameOf s) (e : Exec) :
    f (e.modify w).st = f e.st :=
  hf _ _ (hw e.st)

/-- A callback that keeps `f`, called and logged, keeps `f`. -/
theorem keeps_call {α : Type} (f : GameState → α) (ev : Event) (h : GameState → GameState)
    (hh : ∀ s, f (h s) = f s) (e : Exec) : f (e.call ev h).st = f e.st :=
  hh e.st

/-- Setting the collision bounds keeps `f`. -/
theorem keeps_SetCollisionBounds {α : Type} (f : GameState → α) (hf : FrameOnly f)
    (mins maxs : Vec3) (e : Exec) : f (SetCollisionBounds mins maxs e).st = f e.st :=
  hf _ _ rfl

/-- `RunPreThink` keeps what its callbacks keep. -/
theorem RunPreThink_keeps {α : Type} (f : GameState → α) (hooks : Hooks) (hk : hooks.Keep f)
    (e : Exec) : f (RunPreThink hooks e).st = f e.st := by
  simp only [RunPreThink]
  split
  · exact hk.PhysicsRunThink e.st
  · simp only [Exec.call_st]
    rw [hk.PreThink, hk.PlayerThink, hk.PhysicsRunThink]

/-- `RunThink` keeps what the callbacks keep, of the frame quantities. -/
theorem RunThink_keeps {α : Type} (f : GameState → α) (cfg : Cfg) (hooks : Hooks)
    (hk : hooks.Keep f) (hf : FrameOnly f) (e : Exec) :
    f (RunThink cfg hooks e).st = f e.st := by
  simp only [RunThink]
  split
  · rfl
  · rw [keeps_call f _ _ hk.Think, keeps_modify f hf]
    exact fun _ => rfl

/-- The jump-bug check keeps what the callbacks keep, of the frame quantities. -/
theorem RunCommand_jumpBug_keeps {α : Type} (f : GameState → α) (cfg : Cfg) (env : Env)
    (hooks : Hooks) (hk : hooks.Keep f) (hf : FrameOnly f) (e : Exec) :
    f (RunCommand_jumpBug cfg env hooks e).st = f e.st := by
  simp only [RunCommand_jumpBug, PreventJumpBug]
  split_ifs
  · rfl
  · rw [keeps_modify f hf, keeps_SetCollisionBounds f hf,
      keeps_call f _ _ hk.ProcessImpacts, keeps_SetCollisionBounds f hf]
    exact fun _ => rfl
  · rfl
  · rfl

/-- The think part keeps what the callbacks keep, of the frame quantities. -/
theorem RunCommand_think_keeps {α : Type} (f : GameState → α) (cfg : Cfg) (env : Env)
    (hooks : Hooks) (hk : hooks.Keep f) (hf : FrameOnly f) (e : Exec) :
    f (RunCommand_think cfg env hooks e).st = f e.st := by
  simp only [RunCommand_think]
  rw [RunCommand_jumpBug_keeps f cfg env hooks hk hf,
    keeps_modify f hf RunCommand_oldOrigin (fun _ => rfl), RunThink_keeps f cfg hooks hk hf, RunPreThink_keeps f hooks hk,
    keeps_modify f hf _ frameOf_fixangle, keeps_modify f hf RunCommand_oldAngles (fun _ => rfl),
    keeps_modify f hf _ (frameOf_movingGround cfg)]

/-- Weapon selection keeps what the callbacks keep. -/
theorem RunCommand_selectWeapon_keeps {α : Type} (f : GameState → α) (env : Env)
    (hooks : Hooks) (hk : hooks.Keep f) (e : Exec) :
    f (RunCommand_selectWeapon env hooks e).st = f e.st := by
  unfold RunCommand_selectWeapon
  split
  · split
    · exact hk.SelectItem _ _ _
    · rfl
  · rfl

/-- The command intake keeps, from the prepared state on, what the callbacks
keep, of the frame quantities. -/
theorem RunCommand_intake_keeps {α : Type} (f : GameState → α) (cfg : Cfg) (env : Env)
    (hooks : Hooks) (hk : hooks.Keep f) (hf : FrameOnly f) (e : Exec) :
    f (RunCommand_intake cfg env hooks ((e.st.player.m_nTickBase : ℚ) * cfg.TICK_INTERVAL)
        (playerFrameTime cfg e.st.player) e).st
      = f (RunCommand_prepared cfg env e.st) := by
  simp only [RunCommand_intake]
  rw [keeps_modify f hf _ frameOf_latchImpulse, RunCommand_selectWeapon_keeps f env hooks hk,
    keeps_call f _ _ hk.CommentarySystem_PePlayerRunCommand,
    keeps_call f _ _ hk.StartTrackPredictionErrors]
  rfl

/-- The state after `FinishMove` keeps, from the prepared state on, what the
callbacks keep, of the frame quantities. -/
theorem RunCommand_committed_keeps {α : Type} (f : GameState → α) (cfg : Cfg) (env : Env)
    (hooks : Hooks) (hk : hooks.Keep f) (hf : FrameOnly f) (e : Exec) :
    f (RunCommand_committed cfg env hooks e).st = f (RunCommand_prepared cfg env e.st) := by
  simp only [RunCommand_committed, RunCommand_marshalled, RunCommand_solve, RunCommand_setup]
  rw [keeps_modify f hf _ frameOf_FinishMove, keeps_call f _ _ hk.ProcessMovement,
    keeps_modify f hf _ (frameOf_SetupMove env), RunCommand_think_keeps f cfg env hooks hk hf]
  simp only [RunCommand_input]
  rw [keeps_call f _ _ (hk.UpdateButtonState _)]
  exact RunCommand_intake_keeps f cfg env hooks hk hf e

/-- The view-lock step keeps the frame quantities. -/
theorem RunCommand_viewLock_keeps {α : Type} (f : GameState → α) (cfg : Cfg)
    (hf : FrameOnly f) (e : Exec) : f (RunCommand_viewLock cfg e).st = f e.st := by
  simp only [RunCommand_viewLock, Exec.modify_st]
  split
  · exact hf _ _ rfl
  · rfl

/-- The impact phase keeps what the callbacks keep, of the frame quantities. -/
theorem RunCommand_impacts_keeps {α : Type} (f : GameState → α) (cfg : Cfg) (hooks : Hooks)
    (hk : hooks.Keep f) (hf : FrameOnly f) (e : Exec) :
    f (RunCommand_impacts cfg hooks e).st = f e.st := by
  simp only [RunCommand_impacts]
  split
  · rw [keeps_SetCollisionBounds f hf, keeps_call f _ _ hk.ProcessImpacts,
      keeps_SetCollisionBounds f hf]
  · exact hk.ProcessImpacts _

/-! ### The button mask -/

/-- Bit `i` of the 32-bit complement. -/
theorem testBit_bitNot32 (d i : Nat) :
    (bitNot32 d).testBit i = (d.testBit i ^^ decide (i < 32)) := by
  unfold bitNot32
  rw [Nat.testBit_xor, Nat.testBit_two_pow_sub_one]

/-- Bit `i` of the mask `(b | f) & ~d`. -/
theorem testBit_forced (b f d i : Nat) :
    ((b ||| f) &&& bitNot32 d).testBit i
      = ((b.testBit i || f.testBit i) && (d.testBit i ^^ decide (i < 32))) := by
  rw [Nat.testBit_and, Nat.testBit_or, testBit_bitNot32]

/-- A 32-bit mask has no bit from 32 on. -/
theorem testBit_eq_false_of_lt (d i : Nat) (hd : d < 2 ^ 32) (hi : ¬ i < 32) :
    d.testBit i = false :=
  Nat.testBit_lt_two_pow (lt_of_lt_of_le hd (Nat.pow_le_pow_right (by decide) (not_lt.mp hi)))

/-- The buttons of the prepared state are `(b | f) & ~d`. -/
theorem RunCommand_prepared_buttons (cfg : Cfg) (env : Env) (s : GameState) :
    (RunCommand_prepared cfg env s).ucmd.buttons
      = (s.ucmd.buttons ||| s.player.m_afButtonForced) &&& bitNot32 s.player.m_afButtonDisabled := by
  simp only [RunCommand_prepared, RunCommand_pause, RunCommand_forceButtons,
    RunCommand_checkViewAngles, RunCommand_setGlobals, StartCommand]
  split_ifs <;> rfl

/-- `SetupMove` copies the command's buttons into the move context. -/
theorem SetupMove_buttons (env : Env) (s : GameState) :
    (SetupMove env s).g_pMoveData.m_nButtons = s.ucmd.buttons := by
  simp only [SetupMove]
  split <;> split <;> split_ifs <;> rfl

/-- Under callbacks that keep the command's buttons, the move context handed to
the movement engine holds `(b | f) & ~d`. -/
theorem RunCommand_marshalled_buttons (cfg : Cfg) (env : Env) (hooks : Hooks) (e : Exec)
    (hk : hooks.Keep fun s => s.ucmd.buttons) :
    (RunCommand_marshalled cfg env hooks e).st.g_pMoveData.m_nButtons
      = (e.st.ucmd.buttons ||| e.st.player.m_afButtonForced)
          &&& bitNot32 e.st.player.m_afButtonDisabled := by
  have hf : FrameOnly fun s : GameState => s.ucmd.buttons := by
    intro s t hst
    simp only [frameOf, Prod.mk.injEq] at hst
    exact hst.1
  simp only [RunCommand_marshalled, RunCommand_setup, Exec.modify_st, SetupMove_buttons]
  rw [RunCommand_think_keeps (fun s => s.ucmd.buttons) cfg env hooks hk hf]
  simp only [RunCommand_input, Exec.call_st]
  rw [hk.UpdateButtonState,
    RunCommand_intake_keeps (fun s => s.ucmd.buttons) cfg env hooks hk hf e,
    RunCommand_prepared_buttons]

/-- C1: a frame of a non-bot player whose granted movement time is smaller than
the tick duration is dropped by `RunCommand`: the player, the command, the move
context and the globals are what they were (so the tick base is too), and the
log gains no call other than, at most, the throttled warning. -/
theorem RunCommand_drops_unentitled_frame (cfg : Cfg) (env : Env) (hooks : Hooks) (e : Exec)
    (hbot : e.st.player.IsBot = false)
    (hlt : env.ConsumeMovementTimeForUserCmdProcessing (playerFrameTime cfg e.st.player)
      < playerFrameTime cfg e.st.player) :
    (RunCommand cfg env hooks e).st.player = e.st.player ∧
    (RunCommand cfg env hooks e).st.player.m_nTickBase = e.st.player.m_nTickBase ∧
    (RunCommand cfg env hooks e).st.ucmd = e.st.ucmd ∧
    (RunCommand cfg env hooks e).st.g_pMoveData = e.st.g_pMoveData ∧
    (RunCommand cfg env hooks e).st.gpGlobals = e.st.gpGlobals ∧
    ((RunCommand cfg env hooks e).log = e.log ∨
      (RunCommand cfg env hooks e).log = e.log ++ [Event.Warning]) := by
  have hd : dropsFrame cfg env e.st.player := by
    unfold dropsFrame
    exact ⟨by simp [hbot], hlt⟩
  have hr : RunCommand cfg env hooks e = RunCommand_dropped cfg env e := by
    unfold RunCommand
    rw [if_pos hd]
  rw [hr]
  simp only [RunCommand_dropped]
  split_ifs <;> simp

/-- The dropped-frame theorem at the sample player with no time granted. -/
theorem RunCommand_drops_unentitled_frame_witness :
    exec0.st.player.IsBot = false ∧
    envNoTime.ConsumeMovementTimeForUserCmdProcessing (playerFrameTime cfg0 exec0.st.player)
      < playerFrameTime cfg0 exec0.st.player ∧
    (RunCommand cfg0 envNoTime hooks0 exec0).st.player.m_nTickBase = 10 ∧
    (RunCommand cfg0 envNoTime hooks0 exec0).st.ucmd = ucmd0 :=
  have hbot : exec0.st.player.IsBot = false := rfl
  have hlt : envNoTime.ConsumeMovementTimeForUserCmdProcessing
      (playerFrameTime cfg0 exec0.st.player) < playerFrameTime cfg0 exec0.st.player := by
    norm_num [envNoTime, playerFrameTime, cfg0, exec0, state0, player0]
  have h := RunCommand_drops_unentitled_frame cfg0 envNoTime hooks0 exec0 hbot hlt
  ⟨hbot, hlt, h.2.1.trans rfl, h.2.2.1.trans rfl⟩

/-- When the un-duck sweep starts in solid or is blocked, `PreventJumpBug`
changes nothing and calls nothing. -/
theorem PreventJumpBug_blocked (cfg : Cfg) (env : Env) (hooks : Hooks) (e : Exec)
    (h : (env.UTIL_TraceHull e.st.player.absOrigin
        (e.st.player.absOrigin.add (Vec3.smul (-cfg.viewScale)
          ((cfg.VEC_HULL_MAX.sub cfg.VEC_HULL_MIN).sub
            (cfg.VEC_DUCK_HULL_MAX.sub cfg.VEC_DUCK_HULL_MIN))))
        cfg.VEC_HULL_MIN cfg.VEC_HULL_MAX).startsolid = true ∨
      (env.UTIL_TraceHull e.st.player.absOrigin
        (e.st.player.absOrigin.add (Vec3.smul (-cfg.viewScale)
          ((cfg.VEC_HULL_MAX.sub cfg.VEC_HULL_MIN).sub
            (cfg.VEC_DUCK_HULL_MAX.sub cfg.VEC_DUCK_HULL_MIN))))
        cfg.VEC_HULL_MIN cfg.VEC_HULL_MAX).fraction ≠ 1) :
    PreventJumpBug cfg env hooks e = e := by
  simp only [PreventJumpBug]
  rw [if_pos h]

/-- Whatever `ProcessImpacts` does, the bounds `PreventJumpBug` leaves are the
player's own or the standing hull `VEC_HULL_MIN`, `VEC_HULL_MAX`. -/
theorem PreventJumpBug_bounds (cfg : Cfg) (env : Env) (hooks : Hooks) (e : Exec) :
    ((PreventJumpBug cfg env hooks e).st.player.OBBMins = e.st.player.OBBMins ∧
      (PreventJumpBug cfg env hooks e).st.player.OBBMaxs = e.st.player.OBBMaxs) ∨
    ((PreventJumpBug cfg env hooks e).st.player.OBBMins = cfg.VEC_HULL_MIN ∧
      (PreventJumpBug cfg env hooks e).st.player.OBBMaxs = cfg.VEC_HULL_MAX) := by
  simp only [PreventJumpBug]
  split_ifs
  · exact Or.inl ⟨rfl, rfl⟩
  · exact Or.inr ⟨rfl, rfl⟩
  · exact Or.inl ⟨rfl, rfl⟩

/-- C2 (the code at the failing input): for a ducked player in the air who
passes the guard of lines 501-504, whose un-duck sweep is free and whose
downward ray hits a flat floor, `PreventJumpBug` extends the standing hull, runs
the impact resolution, and then writes the standing hull, not the ducked bounds
the player had on entry. -/
theorem PreventJumpBug_leaves_standing_hull :
    jumpBugGuard cfg0 execDucked.st.player = true ∧
    execDucked.st.player.OBBMaxs = ⟨16, 16, 45⟩ ∧
    (PreventJumpBug cfg0 envFloor hooks0 execDucked).st.player.OBBMaxs = ⟨16, 16, 62⟩ ∧
    (PreventJumpBug cfg0 envFloor hooks0 execDucked).st.player.OBBMaxs
      ≠ execDucked.st.player.OBBMaxs ∧
    (PreventJumpBug cfg0 envFloor hooks0 execDucked).log =
      [Event.SetCollisionBounds ⟨-16, -16, -18⟩ ⟨16, 16, 62⟩, Event.ProcessImpacts,
       Event.SetCollisionBounds ⟨-16, -16, 0⟩ ⟨16, 16, 62⟩] := by
  refine ⟨by decide, ?_⟩
  norm_num [PreventJumpBug, cfg0, envFloor, env0, hooks0, execDucked, playerDucked, state0,
    player0, traceClear, SetCollisionBounds, Exec.call, Exec.modify, Vec3.add, Vec3.sub,
    Vec3.smul]

/-- C3: the impact phase of `RunCommand`, for a `ProcessImpacts` that does not
write the collision bounds. The bounds after the phase are the bounds before it;
the calls made are either the single `ProcessImpacts`, or, only for a grounded
player whose ground point lies lower below the origin than the lower bound,
`SetCollisionBounds` with the lower z replaced by that difference (x, y and the
upper bound kept), `ProcessImpacts`, `SetCollisionBounds` with the bounds of
entry; `ProcessImpacts` is called exactly once. -/
theorem RunCommand_impacts_restores_bounds (cfg : Cfg) (hooks : Hooks) (e : Exec)
    (himp : ∀ s, (hooks.ProcessImpacts s).player.OBBMins = s.player.OBBMins ∧
      (hooks.ProcessImpacts s).player.OBBMaxs = s.player.OBBMaxs) :
    (RunCommand_impacts cfg hooks e).st.player.OBBMins = e.st.player.OBBMins ∧
    (RunCommand_impacts cfg hooks e).st.player.OBBMaxs = e.st.player.OBBMaxs ∧
    ((RunCommand_impacts cfg hooks e).log = e.log ++ [Event.ProcessImpacts] ∨
      (e.st.player.groundEntity.isSome = true ∧
        e.st.g_pMoveData.m_vecGroundPosition.z - e.st.player.absOrigin.z < e.st.player.OBBMins.z ∧
        (RunCommand_impacts cfg hooks e).log = e.log ++
          [Event.SetCollisionBounds
              ⟨e.st.player.OBBMins.x, e.st.player.OBBMins.y,
                e.st.g_pMoveData.m_vecGroundPosition.z - e.st.player.absOrigin.z⟩
              e.st.player.OBBMaxs,
            Event.ProcessImpacts,
            Event.SetCollisionBounds e.st.player.OBBMins e.st.player.OBBMaxs])) ∧
    (RunCommand_impacts cfg hooks e).log.count Event.ProcessImpacts
      = e.log.count Event.ProcessImpacts + 1 := by
  by_cases hfix : groundTriggerFix cfg e.st
  · have hg := hfix.2.1
    have hz := hfix.2.2
    simp only [Vec3.sub] at hz
    simp only [RunCommand_impacts, if_pos hfix, SetCollisionBounds, Exec.call, Vec3.sub]
    refine ⟨trivial, trivial, Or.inr ⟨hg, hz, by simp⟩, ?_⟩
    simp [List.count_append, List.count_cons]
  · have hr : RunCommand_impacts cfg hooks e
        = e.call Event.ProcessImpacts hooks.ProcessImpacts := by
      simp only [RunCommand_impacts, if_neg hfix]
    rw [hr]
    refine ⟨(himp e.st).1, (himp e.st).2, Or.inl rfl, ?_⟩
    simp [Exec.call, List.count_append, List.count_cons]

/-- The impact-phase theorem at the sample player a quarter unit above ground,
where the fix applies. -/
theorem RunCommand_impacts_restores_bounds_witness :
    (∀ s, (hooks0.ProcessImpacts s).player.OBBMins = s.player.OBBMins ∧
      (hooks0.ProcessImpacts s).player.OBBMaxs = s.player.OBBMaxs) ∧
    (RunCommand_impacts cfg0 hooks0 execAboveGround).st.player.OBBMins = ⟨-16, -16, 0⟩ ∧
    (RunCommand_impacts cfg0 hooks0 execAboveGround).log.count Event.ProcessImpacts = 1 :=
  have himp : ∀ s, (hooks0.ProcessImpacts s).player.OBBMins = s.player.OBBMins ∧
      (hooks0.ProcessImpacts s).player.OBBMaxs = s.player.OBBMaxs := fun _ => ⟨rfl, rfl⟩
  have h := RunCommand_impacts_restores_bounds cfg0 hooks0 execAboveGround himp
  ⟨himp, h.1.trans rfl, h.2.2.2.trans rfl⟩

/-- C4 (as stated, refuted): a bot's frame is accepted and lies inside the hold
window (server tick 50, view forced at tick 50, hold duration 1), yet right after
the commit and the view-lock step its view angle is the command's, not the
server-forced value. -/
theorem RunCommand_viewLock_skips_bot :
    ¬ dropsFrame cfg0 env0 execBotLocked.st.player ∧
    (RunCommand_committed cfg0 env0 hooks0 execBotLocked).st.gpGlobals.tickcount
        - (RunCommand_committed cfg0 env0 hooks0 execBotLocked).st.player.lockViewanglesTickNumber
      < cfg0.sv_maxusrcmdprocessticks_holdaim ∧
    (RunCommand_viewLock cfg0
        (RunCommand_committed cfg0 env0 hooks0 execBotLocked)).st.player.v_angle = ⟨10, 20, 0⟩ ∧
    (RunCommand_committed cfg0 env0 hooks0 execBotLocked).st.player.lockViewanglesData
      = ⟨0, 90, 0⟩ ∧
    (RunCommand_viewLock cfg0
        (RunCommand_committed cfg0 env0 hooks0 execBotLocked)).st.player.v_angle
      ≠ (RunCommand_committed cfg0 env0 hooks0 execBotLocked).st.player.lockViewanglesData := by
  norm_num [dropsFrame, playerFrameTime, RunCommand_viewLock, RunCommand_committed,
    RunCommand_marshalled,
    RunCommand_solve, RunCommand_setup, RunCommand_think, RunCommand_input, RunCommand_intake,
    RunCommand_setGlobals, RunCommand_checkViewAngles, RunCommand_forceButtons, RunCommand_pause,
    RunCommand_selectWeapon, RunCommand_latchImpulse, RunCommand_movingGround, RunCommand_oldAngles, RunCommand_fixangle,
    RunCommand_oldOrigin, RunCommand_jumpBug, SetupMove,
    FinishMove, FinishMove_pitch, clamp, RunPreThink, RunThink, PreventJumpBug, jumpBugGuard,
    CheckMovingGround, CheckMovingGround_conveyor, CheckMovingGround_momentum,
    ApplyAbsVelocityImpulse, StartCommand, Exec.call, Exec.modify, Vec3.add, Vec3.smul,
    cfg0, env0, hooks0, execBotLocked, state0, player0, ucmd0, move0, globals0, vec3_origin,
    bitNot32]

/-- C4 (amended): for an accepted frame, `RunCommand` runs its view-lock step
on the state the commit of the movement result left. For a player that is not a
bot, if the server tick minus the tick of the server-forced view change is below
the hold duration at that point, the step leaves the view angle equal to the
server-forced value. For a bot the step writes nothing: the view angle stays
what the command and the movement solve left, inside the hold window or not. -/
theorem RunCommand_viewLock_holds (cfg : Cfg) (env : Env) (hooks : Hooks) (e : Exec)
    (hacc : ¬ dropsFrame cfg env e.st.player) :
    RunCommand cfg env hooks e =
      RunCommand_finish hooks (RunCommand_impacts cfg hooks
        (RunCommand_viewLock cfg (RunCommand_committed cfg env hooks e))) ∧
    ((RunCommand_committed cfg env hooks e).st.player.IsBot = false →
      (RunCommand_committed cfg env hooks e).st.gpGlobals.tickcount
          - (RunCommand_committed cfg env hooks e).st.player.lockViewanglesTickNumber
        < cfg.sv_maxusrcmdprocessticks_holdaim →
      (RunCommand_viewLock cfg (RunCommand_committed cfg env hooks e)).st.player.v_angle
        = (RunCommand_committed cfg env hooks e).st.player.lockViewanglesData) ∧
    ((RunCommand_committed cfg env hooks e).st.player.IsBot = true →
      RunCommand_viewLock cfg (RunCommand_committed cfg env hooks e)
        = RunCommand_committed cfg env hooks e ∧
      (RunCommand_viewLock cfg (RunCommand_committed cfg env hooks e)).st.player.v_angle
        = (RunCommand_committed cfg env hooks e).st.player.v_angle) := by
  refine ⟨by simp only [RunCommand, if_neg hacc], ?_, ?_⟩
  · intro hbot hlock
    simp [RunCommand_viewLock, Exec.modify, hbot, hlock]
  · intro hbot
    have hsame : RunCommand_viewLock cfg (RunCommand_committed cfg env hooks e)
        = RunCommand_committed cfg env hooks e := by
      simp [RunCommand_viewLock, Exec.modify, hbot]
    exact ⟨hsame, by rw [hsame]⟩

/-- The view-lock theorem at the sample human player: the forced view (0, 90, 0)
replaces the command's (10, 20, 0). -/
theorem RunCommand_viewLock_holds_witness :
    ¬ dropsFrame cfg0 env0 execLocked.st.player ∧
    (RunCommand_viewLock cfg0
        (RunCommand_committed cfg0 env0 hooks0 execLocked)).st.player.v_angle = ⟨0, 90, 0⟩ :=
  have hacc : ¬ dropsFrame cfg0 env0 execLocked.st.player := by
    norm_num [dropsFrame, playerFrameTime, cfg0, env0, execLocked, state0, player0]
  have hev : (RunCommand_committed cfg0 env0 hooks0 execLocked).st.player.IsBot = false ∧
      (RunCommand_committed cfg0 env0 hooks0 execLocked).st.gpGlobals.tickcount
          - (RunCommand_committed cfg0 env0 hooks0 execLocked).st.player.lockViewanglesTickNumber
        < cfg0.sv_maxusrcmdprocessticks_holdaim ∧
      (RunCommand_committed cfg0 env0 hooks0 execLocked).st.player.lockViewanglesData
        = ⟨0, 90, 0⟩ := by
    norm_num [playerFrameTime, RunCommand_committed, RunCommand_marshalled,
      RunCommand_solve, RunCommand_setup, RunCommand_think, RunCommand_input, RunCommand_intake,
    RunCommand_setGlobals, RunCommand_checkViewAngles, RunCommand_forceButtons, RunCommand_pause,
    RunCommand_selectWeapon, RunCommand_latchImpulse, RunCommand_movingGround, RunCommand_oldAngles, RunCommand_fixangle,
    RunCommand_oldOrigin, RunCommand_jumpBug, SetupMove,
      FinishMove, FinishMove_pitch, clamp, RunPreThink, RunThink, PreventJumpBug, jumpBugGuard,
      CheckMovingGround, CheckMovingGround_conveyor, CheckMovingGround_momentum,
      ApplyAbsVelocityImpulse, StartCommand, Exec.call, Exec.modify, Vec3.add, Vec3.smul,
      cfg0, env0, hooks0, execLocked, state0, player0, ucmd0, move0, globals0, vec3_origin,
      bitNot32]
  ⟨hacc, ((RunCommand_viewLock_holds cfg0 env0 hooks0 execLocked hacc).2.1 hev.1 hev.2.1).trans
    hev.2.2⟩

/-- C5 (as stated, refuted): when `PhysicsRunThink` returns `false`, an accepted
frame runs the movement solve and the post-think hook, but neither the
game-rule hook `PlayerThink` nor the pre-think hook. -/
theorem RunCommand_skips_prethink_hooks :
    ¬ dropsFrame cfg0 env0 exec0.st.player ∧
    (RunCommand cfg0 env0 hooksNoThink exec0).log =
      [Event.StartTrackPredictionErrors, Event.CommentarySystem_PePlayerRunCommand,
       Event.UpdateButtonState 9, Event.PhysicsRunThink false, Event.ProcessMovement,
       Event.ProcessImpacts, Event.PostThink, Event.FinishTrackPredictionErrors] ∧
    (RunCommand cfg0 env0 hooksNoThink exec0).log.count Event.PlayerThink = 0 ∧
    (RunCommand cfg0 env0 hooksNoThink exec0).log.count Event.PreThink = 0 := by
  have hacc : ¬ dropsFrame cfg0 env0 exec0.st.player := by
    norm_num [dropsFrame, playerFrameTime, cfg0, env0, exec0, state0, player0]
  have hlog : (RunCommand cfg0 env0 hooksNoThink exec0).log =
      [Event.StartTrackPredictionErrors, Event.CommentarySystem_PePlayerRunCommand,
       Event.UpdateButtonState 9, Event.PhysicsRunThink false, Event.ProcessMovement,
       Event.ProcessImpacts, Event.PostThink, Event.FinishTrackPredictionErrors] := by
    simp only [RunCommand, if_neg hacc]
    norm_num [playerFrameTime, RunCommand_finish, RunPostThink, RunCommand_impacts,
      groundTriggerFix, RunCommand_viewLock, RunCommand_committed, RunCommand_marshalled,
      RunCommand_solve, RunCommand_setup, RunCommand_think, RunCommand_input, RunCommand_intake,
      RunCommand_setGlobals, RunCommand_checkViewAngles, RunCommand_forceButtons,
      RunCommand_pause, RunCommand_selectWeapon, RunCommand_latchImpulse,
      RunCommand_movingGround, RunCommand_oldAngles, RunCommand_fixangle,
      RunCommand_oldOrigin, RunCommand_jumpBug, SetupMove,
      FinishMove, FinishMove_pitch, clamp, RunPreThink, RunThink, PreventJumpBug, jumpBugGuard,
      CheckMovingGround, CheckMovingGround_conveyor, CheckMovingGround_momentum,
      ApplyAbsVelocityImpulse, StartCommand, FinishCommand, Exec.call, Exec.modify, Vec3.add,
      Vec3.sub, Vec3.smul, cfg0, env0, hooks0, hooksNoThink, exec0, state0, player0, ucmd0,
      move0, globals0, vec3_origin, bitNot32]
    decide
  refine ⟨hacc, hlog, ?_, ?_⟩ <;> rw [hlog] <;> decide

/-- C5 (amended): the log of an accepted frame splits at the one movement
solve. Before it `PhysicsRunThink` is called once; `PlayerThink` and the
pre-think hook are each called once before the solve when it returned `true` and
not at all when it returned `false`. The post-think hook is called exactly once
after the solve, in either case. -/
theorem RunCommand_think_hooks (cfg : Cfg) (env : Env) (hooks : Hooks) (e : Exec)
    (hacc : ¬ dropsFrame cfg env e.st.player) :
    ∃ (r : Bool) (pre post : List Event),
      (RunCommand cfg env hooks e).log = e.log ++ pre ++ Event.ProcessMovement :: post ∧
      pre.count Event.ProcessMovement = 0 ∧ post.count Event.ProcessMovement = 0 ∧
      pre.count (Event.PhysicsRunThink r) = 1 ∧ pre.count (Event.PhysicsRunThink (!r)) = 0 ∧
      pre.count Event.PlayerThink = (if r = true then 1 else 0) ∧
      pre.count Event.PreThink = (if r = true then 1 else 0) ∧
      pre.count Event.PostThink = 0 ∧
      post.count Event.PostThink = 1 ∧
      post.count Event.PlayerThink = 0 ∧ post.count Event.PreThink = 0 := by
  obtain ⟨sel, r, aux, imp, hlog, hsel, haux, himp⟩ := RunCommand_log cfg env hooks e hacc
  have cs := fun a ha => count_eq_zero_of_isAux sel a hsel ha
  have ca := fun a ha => count_eq_zero_of_isAux aux a haux ha
  have ci := fun a ha => count_eq_zero_of_isAux imp a himp ha
  refine ⟨r, [Event.StartTrackPredictionErrors, Event.CommentarySystem_PePlayerRunCommand]
      ++ sel
      ++ [Event.UpdateButtonState
          (RunCommand_intake cfg env hooks ((e.st.player.m_nTickBase : ℚ) * cfg.TICK_INTERVAL)
            (playerFrameTime cfg e.st.player) e).st.ucmd.buttons]
      ++ (Event.PhysicsRunThink r ::
        (if r = true then [Event.PlayerThink, Event.PreThink] else []))
      ++ aux, imp ++ [Event.PostThink, Event.FinishTrackPredictionErrors], ?_, ?_⟩
  · rw [hlog]
    simp only [List.append_assoc, List.cons_append, List.nil_append, List.singleton_append]
  · cases r <;>
      simp [List.count_append, List.count_cons, cs, ca, ci, Event.isAux]

/-- The think-hook theorem at the sample frame. -/
theorem RunCommand_think_hooks_witness :
    ¬ dropsFrame cfg0 env0 exec0.st.player ∧
    ∃ (r : Bool) (pre post : List Event),
      (RunCommand cfg0 env0 hooks0 exec0).log = exec0.log ++ pre ++ Event.ProcessMovement :: post ∧
      pre.count Event.ProcessMovement = 0 ∧ post.count Event.ProcessMovement = 0 ∧
      pre.count (Event.PhysicsRunThink r) = 1 ∧ pre.count (Event.PhysicsRunThink (!r)) = 0 ∧
      pre.count Event.PlayerThink = (if r = true then 1 else 0) ∧
      pre.count Event.PreThink = (if r = true then 1 else 0) ∧
      pre.count Event.PostThink = 0 ∧
      post.count Event.PostThink = 1 ∧
      post.count Event.PlayerThink = 0 ∧ post.count Event.PreThink = 0 :=
  have hacc : ¬ dropsFrame cfg0 env0 exec0.st.player := by
    norm_num [dropsFrame, playerFrameTime, cfg0, env0, exec0, state0, player0]
  ⟨hacc, RunCommand_think_hooks cfg0 env0 hooks0 exec0 hacc⟩

/-- C6 (as stated, refuted): with the game paused for the player, a noclipping
player under `sv_cheats` and `sv_noclipduringpause` has an accepted frame after
which the tick base is 11, one more than the 10 of entry. -/
theorem RunCommand_tick_advances_while_paused :
    ¬ dropsFrame cfgNoclipPause env0 execPausedNoclip.st.player ∧
    execPausedNoclip.st.player.m_bGamePaused = true ∧
    execPausedNoclip.st.player.m_nTickBase = 10 ∧
    (RunCommand cfgNoclipPause env0 hooks0 execPausedNoclip).st.player.m_nTickBase = 11 := by
  have hacc : ¬ dropsFrame cfgNoclipPause env0 execPausedNoclip.st.player := by
    norm_num [dropsFrame, playerFrameTime, cfgNoclipPause, cfg0, env0, execPausedNoclip, state0,
      player0]
  refine ⟨hacc, rfl, rfl, ?_⟩
  simp only [RunCommand, if_neg hacc]
  norm_num [playerFrameTime, RunCommand_finish, RunPostThink, RunCommand_impacts,
    groundTriggerFix, RunCommand_viewLock, RunCommand_committed, RunCommand_marshalled,
    RunCommand_solve, RunCommand_setup, RunCommand_think, RunCommand_input, RunCommand_intake,
    RunCommand_setGlobals, RunCommand_checkViewAngles, RunCommand_forceButtons,
    RunCommand_pause, RunCommand_selectWeapon, RunCommand_latchImpulse,
    RunCommand_movingGround, RunCommand_oldAngles, RunCommand_fixangle,
    RunCommand_oldOrigin, RunCommand_jumpBug, SetupMove,
    FinishMove, FinishMove_pitch, clamp, RunPreThink, RunThink, PreventJumpBug, jumpBugGuard,
    CheckMovingGround, CheckMovingGround_conveyor, CheckMovingGround_momentum,
    ApplyAbsVelocityImpulse, StartCommand, FinishCommand, Exec.call, Exec.modify, Vec3.add,
    Vec3.sub, Vec3.smul, SetCollisionBounds, cfgNoclipPause, cfg0, env0, hooks0,
    execPausedNoclip, state0, player0, ucmd0, move0, globals0, vec3_origin, bitNot32]

/-- C6 (amended): for an accepted frame, a positive `TICK_INTERVAL` and
callbacks that write neither the tick base nor `gpGlobals->frametime`, the tick
base after `RunCommand` is the tick base before plus one when the game is not
paused for the player, or is paused while the player noclips with `sv_cheats`
and `sv_noclipduringpause` on; it is unchanged when the game is paused
otherwise. -/
theorem RunCommand_tick_advance (cfg : Cfg) (env : Env) (hooks : Hooks) (e : Exec)
    (hacc : ¬ dropsFrame cfg env e.st.player) (htick : 0 < cfg.TICK_INTERVAL)
    (hk : hooks.Keep fun s => (s.gpGlobals.frametime, s.player.m_nTickBase)) :
    (RunCommand cfg env hooks e).st.player.m_nTickBase =
      if e.st.player.m_bGamePaused = false ∨
          (e.st.player.moveType = MoveType.MOVETYPE_NOCLIP ∧ cfg.sv_cheats = true ∧
            cfg.sv_noclipduringpause = true)
      then e.st.player.m_nTickBase + 1 else e.st.player.m_nTickBase := by
  have hf : FrameOnly fun s : GameState => (s.gpGlobals.frametime, s.player.m_nTickBase) := by
    intro s t hst
    simp only [frameOf, Prod.mk.injEq] at hst
    simp only [hst.2.1, hst.2.2]
  have hfin : ∀ x : Exec, (RunCommand_finish hooks x).st.player.m_nTickBase =
      if x.st.gpGlobals.frametime > 0 then x.st.player.m_nTickBase + 1
      else x.st.player.m_nTickBase := by
    intro x
    have hy : ((FinishCommand (hooks.FinishTrackPredictionErrors
          (hooks.PostThink x.st))).gpGlobals.frametime,
        (FinishCommand (hooks.FinishTrackPredictionErrors
          (hooks.PostThink x.st))).player.m_nTickBase)
        = (x.st.gpGlobals.frametime, x.st.player.m_nTickBase) :=
      (hf _ _ (frameOf_FinishCommand _)).trans
        ((hk.FinishTrackPredictionErrors _).trans (hk.PostThink _))
    simp only [Prod.mk.injEq] at hy
    simp only [RunCommand_finish, RunPostThink, Exec.modify_st, Exec.call_st, hy.1]
    split
    · exact congrArg (· + 1) hy.2
    · exact hy.2
  have hx := (RunCommand_impacts_keeps _ cfg hooks hk hf
      (RunCommand_viewLock cfg (RunCommand_committed cfg env hooks e))).trans
    ((RunCommand_viewLock_keeps _ cfg hf (RunCommand_committed cfg env hooks e)).trans
      (RunCommand_committed_keeps _ cfg env hooks hk hf e))
  simp only [Prod.mk.injEq] at hx
  have hr : RunCommand cfg env hooks e = RunCommand_finish hooks (RunCommand_impacts cfg hooks
      (RunCommand_viewLock cfg (RunCommand_committed cfg env hooks e))) := by
    simp only [RunCommand, if_neg hacc]
  rw [hr, hfin, hx.1, hx.2]
  have htb : (RunCommand_prepared cfg env e.st).player.m_nTickBase = e.st.player.m_nTickBase := by
    simp only [RunCommand_prepared, RunCommand_pause, RunCommand_forceButtons,
      RunCommand_checkViewAngles, RunCommand_setGlobals, StartCommand]
    split_ifs <;> rfl
  rw [htb]
  cases hp : e.st.player.m_bGamePaused
  · have hft : (RunCommand_prepared cfg env e.st).gpGlobals.frametime = cfg.TICK_INTERVAL := by
      simp only [RunCommand_prepared, RunCommand_pause, RunCommand_forceButtons,
        RunCommand_checkViewAngles, RunCommand_setGlobals, StartCommand, playerFrameTime]
      split_ifs <;> simp_all
    rw [hft]
    simp [htick]
  · by_cases hn : e.st.player.moveType = MoveType.MOVETYPE_NOCLIP ∧ cfg.sv_cheats = true ∧
        cfg.sv_noclipduringpause = true
    · have hft : (RunCommand_prepared cfg env e.st).gpGlobals.frametime = cfg.TICK_INTERVAL := by
        simp only [RunCommand_prepared, RunCommand_pause, RunCommand_forceButtons,
          RunCommand_checkViewAngles, RunCommand_setGlobals, StartCommand, playerFrameTime]
        split_ifs <;> simp_all
      rw [hft]
      simp [htick, hn]
    · have hft : (RunCommand_prepared cfg env e.st).gpGlobals.frametime = 0 := by
        simp only [RunCommand_prepared, RunCommand_pause, RunCommand_forceButtons,
          RunCommand_checkViewAngles, RunCommand_setGlobals, StartCommand, playerFrameTime]
        split_ifs <;> simp_all
      rw [hft]
      simp [hn]

/-- The tick-advance theorem at the sample frame: tick base 10 becomes 11. -/
theorem RunCommand_tick_advance_witness :
    ¬ dropsFrame cfg0 env0 exec0.st.player ∧ 0 < cfg0.TICK_INTERVAL ∧
    (hooks0.Keep fun s => (s.gpGlobals.frametime, s.player.m_nTickBase)) ∧
    (RunCommand cfg0 env0 hooks0 exec0).st.player.m_nTickBase = 11 :=
  have hacc : ¬ dropsFrame cfg0 env0 exec0.st.player := by
    norm_num [dropsFrame, playerFrameTime, cfg0, env0, exec0, state0, player0]
  have htick : 0 < cfg0.TICK_INTERVAL := by norm_num [cfg0]
  have hk : hooks0.Keep fun s => (s.gpGlobals.frametime, s.player.m_nTickBase) :=
    ⟨fun _ => rfl, fun _ => rfl, fun _ _ _ => rfl, fun _ _ => rfl, fun _ => rfl, fun _ => rfl,
      fun _ => rfl, fun _ => rfl, fun _ => rfl, fun _ => rfl, fun _ => rfl, fun _ => rfl⟩
  ⟨hacc, htick, hk, (RunCommand_tick_advance cfg0 env0 hooks0 exec0 hacc htick hk).trans rfl⟩

/-- C7: for a pitch `p` in [0, 360) held in the move context, `FinishMove`
stores `p - 360` when `p > 180` and `p` otherwise, clamped to [-90, 90], in the
move context angles, the body pitch and the local angles alike; the stored
pitch lies in [-90, 90], and a pitch of exactly 180 is stored as 90. -/
theorem FinishMove_pitch_stored (s : GameState)
    (h0 : 0 ≤ s.g_pMoveData.m_vecAngles.pitch) (h360 : s.g_pMoveData.m_vecAngles.pitch < 360) :
    (FinishMove s).g_pMoveData.m_vecAngles.pitch =
      max (-90) (min 90 (if s.g_pMoveData.m_vecAngles.pitch > 180
        then s.g_pMoveData.m_vecAngles.pitch - 360 else s.g_pMoveData.m_vecAngles.pitch)) ∧
    (FinishMove s).player.bodyPitch = (FinishMove s).g_pMoveData.m_vecAngles.pitch ∧
    (FinishMove s).player.localAngles.pitch = (FinishMove s).g_pMoveData.m_vecAngles.pitch ∧
    -90 ≤ (FinishMove s).g_pMoveData.m_vecAngles.pitch ∧
    (FinishMove s).g_pMoveData.m_vecAngles.pitch ≤ 90 ∧
    (s.g_pMoveData.m_vecAngles.pitch = 180 →
      (FinishMove s).g_pMoveData.m_vecAngles.pitch = 90) := by
  have hp : (FinishMove s).g_pMoveData.m_vecAngles.pitch
      = FinishMove_pitch s.g_pMoveData.m_vecAngles.pitch := rfl
  have hb : (FinishMove s).player.bodyPitch
      = FinishMove_pitch s.g_pMoveData.m_vecAngles.pitch := rfl
  have hl : (FinishMove s).player.localAngles.pitch
      = FinishMove_pitch s.g_pMoveData.m_vecAngles.pitch := rfl
  rw [hp, hb, hl]
  generalize s.g_pMoveData.m_vecAngles.pitch = p at h0 h360
  have hval : FinishMove_pitch p = max (-90) (min 90 (if p > 180 then p - 360 else p)) := by
    simp only [FinishMove_pitch, clamp]
    split_ifs with h1 h2 h3 h4 h5
    · rw [min_eq_right (by linarith), max_eq_left (by linarith)]
    · linarith
    · rw [min_eq_right (by linarith), max_eq_right (by linarith)]
    · linarith
    · rw [min_eq_left (by linarith), max_eq_right (by linarith)]
    · rw [min_eq_right (by linarith), max_eq_right (by linarith)]
  refine ⟨hval, rfl, rfl, ?_, ?_, ?_⟩
  · rw [hval]
    exact le_max_left _ _
  · rw [hval]
    exact max_le (by norm_num) (min_le_left _ _)
  · intro h180
    rw [hval, h180]
    norm_num

/-- The pitch theorem at the sample pitch 270, stored as -90. -/
theorem FinishMove_pitch_stored_witness :
    0 ≤ statePitch270.g_pMoveData.m_vecAngles.pitch ∧
    statePitch270.g_pMoveData.m_vecAngles.pitch < 360 ∧
    (FinishMove statePitch270).g_pMoveData.m_vecAngles.pitch = -90 ∧
    (FinishMove statePitch270).player.bodyPitch = -90 :=
  have h0 : 0 ≤ statePitch270.g_pMoveData.m_vecAngles.pitch := by
    norm_num [statePitch270]
  have h360 : statePitch270.g_pMoveData.m_vecAngles.pitch < 360 := by
    norm_num [statePitch270]
  have h := FinishMove_pitch_stored statePitch270 h0 h360
  have hv : max (-90 : ℚ) (min 90 (if statePitch270.g_pMoveData.m_vecAngles.pitch > 180
      then statePitch270.g_pMoveData.m_vecAngles.pitch - 360
      else statePitch270.g_pMoveData.m_vecAngles.pitch)) = -90 := by
    norm_num [statePitch270]
  ⟨h0, h360, h.1.trans hv, h.2.1.trans (h.1.trans hv)⟩

/-- C8 (as stated, refuted): a scheduled-think tick of 0 is not the 'never'
sentinel (-1) and is not later than the tick base 10, yet `RunThink` calls
nothing and leaves the schedule as it is. -/
theorem RunThink_skips_tick_zero :
    execThinkZero.st.player.nextThinkTick ≠ cfg0.TICK_NEVER_THINK ∧
    execThinkZero.st.player.nextThinkTick ≤ execThinkZero.st.player.m_nTickBase ∧
    (RunThink cfg0 hooks0 execThinkZero).log = [] ∧
    Event.Think ∉ (RunThink cfg0 hooks0 execThinkZero).log ∧
    (RunThink cfg0 hooks0 execThinkZero).st.player.nextThinkTick = 0 := by
  have hr : RunThink cfg0 hooks0 execThinkZero = execThinkZero := by
    simp [RunThink, execThinkZero]
  rw [hr]
  simp [execThinkZero, cfg0, state0, player0]

/-- C8 (amended): `RunThink` calls the player's `Think` exactly when the
scheduled-think tick is positive and not later than the tick base. Then the one
call logged is `Think`, and the state `Think` starts from is the state of entry
with the schedule set to `TICK_NEVER_THINK`. When the tick is zero or negative
(the sentinel included) or lies in the future, nothing is called and nothing,
the schedule included, is changed. -/
theorem RunThink_due_iff (cfg : Cfg) (hooks : Hooks) (e : Exec) :
    ((0 < e.st.player.nextThinkTick ∧ e.st.player.nextThinkTick ≤ e.st.player.m_nTickBase) →
      (RunThink cfg hooks e).log = e.log ++ [Event.Think] ∧
      (RunThink cfg hooks e).st = hooks.Think
        { e.st with player := { e.st.player with nextThinkTick := cfg.TICK_NEVER_THINK } }) ∧
    (¬ (0 < e.st.player.nextThinkTick ∧ e.st.player.nextThinkTick ≤ e.st.player.m_nTickBase) →
      RunThink cfg hooks e = e) := by
  constructor
  · intro h
    have hc : ¬ (e.st.player.nextThinkTick ≤ 0 ∨
        e.st.player.nextThinkTick > e.st.player.m_nTickBase) := by
      intro hor
      rcases hor with h1 | h1
      · exact absurd h.1 (not_lt.mpr h1)
      · exact absurd h.2 (not_le.mpr h1)
    simp only [RunThink, if_neg hc]
    exact ⟨rfl, rfl⟩
  · intro h
    have hc : e.st.player.nextThinkTick ≤ 0 ∨
        e.st.player.nextThinkTick > e.st.player.m_nTickBase := by
      by_contra hno
      push_neg at hno
      exact h ⟨hno.1, hno.2⟩
    simp only [RunThink, if_pos hc]

/-- The think theorem at the sample run with a due tick: `Think` is called once
and the schedule it leaves is the sentinel. -/
theorem RunThink_due_iff_witness :
    (RunThink cfg0 hooks0 execThinkDue).log = [Event.Think] ∧
    (RunThink cfg0 hooks0 execThinkDue).st.player.nextThinkTick = -1 :=
  have h := (RunThink_due_iff cfg0 hooks0 execThinkDue).1 (by decide)
  ⟨h.1.trans rfl, (congrArg (fun s => s.player.nextThinkTick) h.2).trans rfl⟩

/-- C9 (as stated, refuted): a player on the ground of a conveyor moving at
(2, 0, 0), holding a base velocity (1, 0, 0) with the base-velocity flag clear,
leaves `CheckMovingGround` with base velocity (2, 0, 0), not the sum (3, 0, 0). -/
theorem CheckMovingGround_drops_stale_base_velocity :
    playerOnConveyor.flags.FL_ONGROUND = true ∧
    playerOnConveyor.groundEntity = some ⟨true, ⟨2, 0, 0⟩⟩ ∧
    playerOnConveyor.baseVelocity = ⟨1, 0, 0⟩ ∧
    (CheckMovingGround cfg0.TICK_INTERVAL playerOnConveyor).baseVelocity = ⟨2, 0, 0⟩ ∧
    (CheckMovingGround cfg0.TICK_INTERVAL playerOnConveyor).baseVelocity
      ≠ Vec3.add ⟨2, 0, 0⟩ playerOnConveyor.baseVelocity := by
  norm_num [CheckMovingGround, CheckMovingGround_conveyor, CheckMovingGround_momentum,
    ApplyAbsVelocityImpulse, playerOnConveyor, player0, cfg0, Vec3.add, Vec3.smul]

/-- C9 (amended): for a player flagged on-ground whose ground entity is flagged
as a conveyor, the base velocity after `CheckMovingGround` is the mover's ground
velocity plus the base velocity of entry when the base-velocity flag was set on
entry, and the mover's ground velocity alone when it was clear; the absolute
velocity is not changed. -/
theorem CheckMovingGround_on_conveyor (frametime : ℚ) (p : CBasePlayer) (g : GroundEntity)
    (hground : p.flags.FL_ONGROUND = true) (hg : p.groundEntity = some g)
    (hc : g.FL_CONVEYOR = true) :
    (CheckMovingGround frametime p).baseVelocity =
      (if p.flags.FL_BASEVELOCITY = true then g.groundVelocityToApply.add p.baseVelocity
        else g.groundVelocityToApply) ∧
    (CheckMovingGround frametime p).absVelocity = p.absVelocity := by
  simp only [CheckMovingGround, CheckMovingGround_momentum, CheckMovingGround_conveyor,
    hground, hg, hc, if_true]
  cases hb : p.flags.FL_BASEVELOCITY <;> simp

/-- The conveyor theorem at the sample player with the flag set: the base
velocity becomes (3, 0, 0) and the absolute velocity stays (5, 0, 0). -/
theorem CheckMovingGround_on_conveyor_witness :
    playerOnConveyorPending.flags.FL_ONGROUND = true ∧
    (CheckMovingGround cfg0.TICK_INTERVAL playerOnConveyorPending).baseVelocity = ⟨3, 0, 0⟩ ∧
    (CheckMovingGround cfg0.TICK_INTERVAL playerOnConveyorPending).absVelocity = ⟨5, 0, 0⟩ :=
  have h := CheckMovingGround_on_conveyor cfg0.TICK_INTERVAL playerOnConveyorPending
    ⟨true, ⟨2, 0, 0⟩⟩ rfl rfl rfl
  have hv : (if playerOnConveyorPending.flags.FL_BASEVELOCITY = true
      then Vec3.add ⟨2, 0, 0⟩ playerOnConveyorPending.baseVelocity else ⟨2, 0, 0⟩)
      = (⟨3, 0, 0⟩ : Vec3) := by
    norm_num [playerOnConveyorPending, playerOnConveyor, player0, Vec3.add]
  ⟨rfl, h.1.trans hv, h.2.trans rfl⟩

/-- C10: for an accepted frame with client mask `b`, forced-on set `f` and
forced-off set `d` (32-bit masks) and callbacks that do not write the command's
buttons, the one `UpdateButtonState` call of `RunCommand` and the move context
handed to the movement engine both get `(b | f) & ~d`. That mask holds no bit of
`d`, holds every bit of `f` that is not in `d`, and is the same for a second
client mask that agrees with `b` outside `f` and `d`. -/
theorem RunCommand_forced_buttons (cfg : Cfg) (env : Env) (hooks : Hooks) (e : Exec)
    (hacc : ¬ dropsFrame cfg env e.st.player)
    (hk : hooks.Keep fun s => s.ucmd.buttons)
    (hf : e.st.player.m_afButtonForced < 2 ^ 32)
    (hd : e.st.player.m_afButtonDisabled < 2 ^ 32) :
    (∃ pre post, (RunCommand cfg env hooks e).log = e.log ++ pre ++
        Event.UpdateButtonState ((e.st.ucmd.buttons ||| e.st.player.m_afButtonForced)
          &&& bitNot32 e.st.player.m_afButtonDisabled) :: post ∧
      (∀ m, Event.UpdateButtonState m ∉ pre) ∧ (∀ m, Event.UpdateButtonState m ∉ post)) ∧
    (RunCommand_marshalled cfg env hooks e).st.g_pMoveData.m_nButtons
      = (e.st.ucmd.buttons ||| e.st.player.m_afButtonForced)
          &&& bitNot32 e.st.player.m_afButtonDisabled ∧
    (∀ i, e.st.player.m_afButtonDisabled.testBit i = true →
      ((e.st.ucmd.buttons ||| e.st.player.m_afButtonForced)
        &&& bitNot32 e.st.player.m_afButtonDisabled).testBit i = false) ∧
    (∀ i, e.st.player.m_afButtonForced.testBit i = true →
      e.st.player.m_afButtonDisabled.testBit i = false →
      ((e.st.ucmd.buttons ||| e.st.player.m_afButtonForced)
        &&& bitNot32 e.st.player.m_afButtonDisabled).testBit i = true) ∧
    (∀ e2 : Exec, e2.st.player = e.st.player →
      (∀ i, e.st.player.m_afButtonForced.testBit i = false →
        e.st.player.m_afButtonDisabled.testBit i = false →
        e2.st.ucmd.buttons.testBit i = e.st.ucmd.buttons.testBit i) →
      (RunCommand_marshalled cfg env hooks e2).st.g_pMoveData.m_nButtons
        = (RunCommand_marshalled cfg env hooks e).st.g_pMoveData.m_nButtons) := by
  have hfo : FrameOnly fun s : GameState => s.ucmd.buttons := by
    intro s t hst
    simp only [frameOf, Prod.mk.injEq] at hst
    exact hst.1
  refine ⟨?_, RunCommand_marshalled_buttons cfg env hooks e hk, ?_, ?_, ?_⟩
  · obtain ⟨sel, r, aux, imp, hlog, hsel, haux, himp⟩ := RunCommand_log cfg env hooks e hacc
    have hm : (RunCommand_intake cfg env hooks ((e.st.player.m_nTickBase : ℚ) * cfg.TICK_INTERVAL)
        (playerFrameTime cfg e.st.player) e).st.ucmd.buttons
        = (e.st.ucmd.buttons ||| e.st.player.m_afButtonForced)
            &&& bitNot32 e.st.player.m_afButtonDisabled :=
      (RunCommand_intake_keeps (fun s => s.ucmd.buttons) cfg env hooks hk hfo e).trans
        (RunCommand_prepared_buttons cfg env e.st)
    rw [hm] at hlog
    have nsel : ∀ m, Event.UpdateButtonState m ∉ sel := fun m hmem =>
      Bool.noConfusion (hsel _ hmem)
    have naux : ∀ m, Event.UpdateButtonState m ∉ aux := fun m hmem =>
      Bool.noConfusion (haux _ hmem)
    have nimp : ∀ m, Event.UpdateButtonState m ∉ imp := fun m hmem =>
      Bool.noConfusion (himp _ hmem)
    refine ⟨[Event.StartTrackPredictionErrors, Event.CommentarySystem_PePlayerRunCommand] ++ sel,
      (Event.PhysicsRunThink r ::
          (if r = true then [Event.PlayerThink, Event.PreThink] else []))
        ++ aux ++ [Event.ProcessMovement] ++ imp
        ++ [Event.PostThink, Event.FinishTrackPredictionErrors], ?_, ?_, ?_⟩
    · rw [hlog]
      simp only [List.append_assoc, List.cons_append, List.nil_append, List.singleton_append]
    · intro m
      simp [nsel m]
    · intro m
      cases r <;> simp [naux m, nimp m]
  · intro i hdi
    rw [testBit_forced, hdi]
    by_cases hi : i < 32
    · simp [hi]
    · rw [testBit_eq_false_of_lt _ i hd hi] at hdi
      exact Bool.noConfusion hdi
  · intro i hfi hdi
    rw [testBit_forced, hfi, hdi]
    by_cases hi : i < 32
    · simp [hi]
    · rw [testBit_eq_false_of_lt _ i hf hi] at hfi
      exact Bool.noConfusion hfi
  · intro e2 hp hagree
    rw [RunCommand_marshalled_buttons cfg env hooks e2 hk,
      RunCommand_marshalled_buttons cfg env hooks e hk, hp]
    apply Nat.eq_of_testBit_eq
    intro i
    rw [testBit_forced, testBit_forced]
    by_cases hi : i < 32
    · cases hfi : e.st.player.m_afButtonForced.testBit i
      · cases hdi : e.st.player.m_afButtonDisabled.testBit i
        · rw [hagree i hfi hdi]
        · simp [hi]
      · simp
    · rw [testBit_eq_false_of_lt _ i hd hi]
      simp [hi]

/-- The forced-button theorem at the sample run: the client reports jump and
forward (10), attack is forced on (1), jump is disabled (2), and the mask passed
on is attack and forward (9). -/
theorem RunCommand_forced_buttons_witness :
    ¬ dropsFrame cfg0 env0 execForced.st.player ∧
    (hooks0.Keep fun s => s.ucmd.buttons) ∧
    (RunCommand_marshalled cfg0 env0 hooks0 execForced).st.g_pMoveData.m_nButtons = 9 :=
  have hacc : ¬ dropsFrame cfg0 env0 execForced.st.player := by
    norm_num [dropsFrame, playerFrameTime, cfg0, env0, execForced, state0, player0]
  have hk : hooks0.Keep fun s => s.ucmd.buttons :=
    ⟨fun _ => rfl, fun _ => rfl, fun _ _ _ => rfl, fun _ _ => rfl, fun _ => rfl, fun _ => rfl,
      fun _ => rfl, fun _ => rfl, fun _ => rfl, fun _ => rfl, fun _ => rfl, fun _ => rfl⟩
  ⟨hacc, hk, (RunCommand_forced_buttons cfg0 env0 hooks0 execForced hacc hk (by decide)
    (by decide)).2.1.trans (by decide)⟩

/-- C11: in `CheckMovingGround` the base velocity is not pending after the
conveyor check exactly when the flag was clear on entry and the conveyor made no
contribution. Then the absolute velocity gains `(1 + frametime * 0.5)` times the
base velocity of entry and the base velocity becomes zero. When the base
velocity is pending after the conveyor check, the momentum branch changes
neither the absolute nor the base velocity. The base-velocity flag is clear on
exit in every case. -/
theorem CheckMovingGround_momentum_impulse (frametime : ℚ) (p : CBasePlayer) :
    ((CheckMovingGround_conveyor p).flags.FL_BASEVELOCITY = false ↔
      p.flags.FL_BASEVELOCITY = false ∧
        ¬ (p.flags.FL_ONGROUND = true ∧
          ∃ g, p.groundEntity = some g ∧ g.FL_CONVEYOR = true)) ∧
    ((CheckMovingGround_conveyor p).flags.FL_BASEVELOCITY = false →
      (CheckMovingGround frametime p).absVelocity =
        ⟨p.absVelocity.x + (1 + frametime * (1 / 2)) * p.baseVelocity.x,
         p.absVelocity.y + (1 + frametime * (1 / 2)) * p.baseVelocity.y,
         p.absVelocity.z + (1 + frametime * (1 / 2)) * p.baseVelocity.z⟩ ∧
      (CheckMovingGround frametime p).baseVelocity = ⟨0, 0, 0⟩) ∧
    ((CheckMovingGround_conveyor p).flags.FL_BASEVELOCITY = true →
      (CheckMovingGround frametime p).absVelocity = (CheckMovingGround_conveyor p).absVelocity ∧
      (CheckMovingGround frametime p).absVelocity = p.absVelocity ∧
      (CheckMovingGround frametime p).baseVelocity
        = (CheckMovingGround_conveyor p).baseVelocity) ∧
    (CheckMovingGround frametime p).flags.FL_BASEVELOCITY = false := by
  have hconv : (CheckMovingGround_conveyor p).flags.FL_BASEVELOCITY = false →
      CheckMovingGround_conveyor p = p := by
    unfold CheckMovingGround_conveyor
    intro h
    split at h
    · split at h
      · split at h
        · exact Bool.noConfusion h
        · simp_all
      · simp_all
    · simp_all
  have habs : (CheckMovingGround_conveyor p).absVelocity = p.absVelocity := by
    unfold CheckMovingGround_conveyor
    split
    · split
      · split <;> rfl
      · rfl
    · rfl
  refine ⟨⟨fun h => ?_, fun h => ?_⟩, fun h => ?_, fun h => ?_, ?_⟩
  · have hp := hconv h
    rw [hp] at h
    refine ⟨h, ?_⟩
    rintro ⟨hground, g, hg, hc⟩
    have hset : (CheckMovingGround_conveyor p).flags.FL_BASEVELOCITY = true := by
      simp [CheckMovingGround_conveyor, hground, hg, hc]
    rw [hp, h] at hset
    exact Bool.noConfusion hset
  · obtain ⟨hflag, hno⟩ := h
    unfold CheckMovingGround_conveyor
    split
    · rename_i hground
      split
      · rename_i g hg
        split
        · rename_i hc
          exact absurd ⟨hground, g, hg, hc⟩ hno
        · exact hflag
      · exact hflag
    · exact hflag
  · have hp := hconv h
    rw [hp] at h
    simp [CheckMovingGround, CheckMovingGround_momentum, ApplyAbsVelocityImpulse, hp, h,
      Vec3.add, Vec3.smul, vec3_origin]
  · refine ⟨?_, ?_, ?_⟩
    · simp [CheckMovingGround, CheckMovingGround_momentum, h]
    · rw [← habs]
      simp [CheckMovingGround, CheckMovingGround_momentum, h]
    · simp [CheckMovingGround, CheckMovingGround_momentum, h]
  · simp [CheckMovingGround, CheckMovingGround_momentum]

/-- The momentum theorem at the sample airborne player and a tick of 3/200: the
absolute velocity (5, 0, 0) gains 403/100 and the base velocity is cleared. -/
theorem CheckMovingGround_momentum_impulse_witness :
    (CheckMovingGround_conveyor playerLeftPlatform).flags.FL_BASEVELOCITY = false ∧
    (CheckMovingGround (3 / 200) playerLeftPlatform).absVelocity = ⟨903 / 100, 0, 0⟩ ∧
    (CheckMovingGround (3 / 200) playerLeftPlatform).baseVelocity = ⟨0, 0, 0⟩ ∧
    (CheckMovingGround (3 / 200) playerLeftPlatform).flags.FL_BASEVELOCITY = false :=
  have hflag : (CheckMovingGround_conveyor playerLeftPlatform).flags.FL_BASEVELOCITY = false :=
    rfl
  have h := CheckMovingGround_momentum_impulse (3 / 200) playerLeftPlatform
  have hv : (⟨playerLeftPlatform.absVelocity.x
        + (1 + (3 / 200 : ℚ) * (1 / 2)) * playerLeftPlatform.baseVelocity.x,
      playerLeftPlatform.absVelocity.y
        + (1 + (3 / 200 : ℚ) * (1 / 2)) * playerLeftPlatform.baseVelocity.y,
      playerLeftPlatform.absVelocity.z
        + (1 + (3 / 200 : ℚ) * (1 / 2)) * playerLeftPlatform.baseVelocity.z⟩ : Vec3)
      = ⟨903 / 100, 0, 0⟩ := by
    norm_num [playerLeftPlatform, player0]
  ⟨hflag, (h.2.1 hflag).1.trans hv, (h.2.1 hflag).2, h.2.2.2⟩

end CPlayerMove
